import Mathlib

/-!
Shallow embedding of the ParkSense route-scoring and trail-graph code.

Sources embedded here:
* `src/js/route-scoring.js` — the `RouteScorer` class (multi-dimensional
  route scoring, dynamic weight adjustment, top-2 recommendation).
* `src/地图功能原型/js/parksense-mobile-complete.js` — trail graph builder,
  haversine distance, Dijkstra shortest path.

Modelling conventions:
* JavaScript numbers are modelled by `ℚ` (exact arithmetic); the floating
  point representation itself is not modelled.  All concrete inputs used in
  theorems keep the computations far from any comparison or rounding
  boundary, so the ℚ results agree with the float results.
* `x || d` on a numeric JS value is `jsOrQ`: it falls back to the default
  both when the field is absent and when it is `0` (JS falsiness).
* Object fields that the code reads optionally are `Option` fields.
* `Math.round(x*100)/100` is `round2`; JS `Math.round x = ⌊x + 1/2⌋`.
* The trig-based geodesic distances (`haversine`, `calculateDistance`) are
  embedded over `ℝ` at the end of the file; the graph builder and the
  recommender take the distance function as an explicit parameter (the JS
  functions close over it).
-/

namespace ParkSense

/-- JS `Math.round(x * 100) / 100` (round to 2 decimals); JS
`Math.round x = ⌊x + 1/2⌋`. -/
def round2 (x : ℚ) : ℚ := (⌊x * 100 + 1/2⌋ : ℚ) / 100

/-- JS `v || d` for an optionally-present numeric field: the default is used
when the field is absent *or* equal to `0` (both are falsy in JS). -/
def jsOrQ (v : Option ℚ) (d : ℚ) : ℚ :=
  match v with
  | none => d
  | some x => if x = 0 then d else x

/-- JS `v || d` for a numeric field that is always present. -/
def jsq (x d : ℚ) : ℚ := if x = 0 then d else x

/-- JS `v || d` for an optionally-present string field (`""` is falsy). -/
def jsOrS (v : Option String) (d : String) : String :=
  match v with
  | none => d
  | some s => if s = "" then d else s

/-- JS truthiness of an optionally-present numeric field. -/
def jsTruthyQ (v : Option ℚ) : Bool :=
  match v with
  | none => false
  | some x => x != 0

/-- JS truthiness of an optionally-present string field. -/
def jsTruthyS (v : Option String) : Bool :=
  match v with
  | none => false
  | some s => s != ""

/-- JS `v || []` for an optionally-present array field (arrays are always
truthy, so a present empty array stays empty). -/
def jsOrL (v : Option (List String)) : List String := v.getD []

/-- A weather reading; the fields of `weatherData` destructured (with
defaults applying only to absent fields) in `calculateWeatherScore`. -/
structure Weather where
  temperature : Option ℚ
  precipitation : Option ℚ
  windSpeed : Option ℚ
  humidity : Option ℚ
  sunny : Option Bool
  deriving DecidableEq

/-- One facility on a route: `{type, status}`. -/
structure Facility where
  type : String
  status : String
  deriving DecidableEq

/-- `route.wildlifeData`: per-species base probability; only the four keys
of `wildlifePatterns` are ever read. -/
structure WildlifeData where
  birds : Option ℚ
  squirrels : Option ℚ
  ducks : Option ℚ
  swans : Option ℚ
  deriving DecidableEq

/-- A geographic point `{lat, lng}` as consumed by `calculateDistance`. -/
structure GeoPoint where
  lat : ℚ
  lng : ℚ
  deriving DecidableEq

/-- A candidate route with the attributes the scorer reads.  Fields the
code reads through `||` with a default are `Option`s; `distance`,
`estimatedTime` and `startPoint` are part of the route data model and are
always present. -/
structure Route where
  id : String
  distance : ℚ
  estimatedTime : ℚ
  difficulty : Option String
  themes : Option (List String)
  accessible : Bool
  startPoint : GeoPoint
  facilities : List Facility
  shelterCoverage : Option ℚ
  shadeCoverage : Option ℚ
  exposureLevel : Option ℚ
  wildlifeData : WildlifeData
  species : List String
  wildlifeHistory : Option ℚ
  recentSightings : ℕ
  nearWater : Bool
  vegetationCoverage : Option ℚ
  crowdDensity : Option ℚ
  surfaceQuality : Option ℚ
  gradient : Option ℚ
  safety : Option ℚ
  scenery : Option ℚ
  deriving DecidableEq

/-- User preferences / profile; `needs` models the `userNeeds` object as an
association list of (facility type, truthy flag). -/
structure Preferences where
  prioritizeWildlife : Bool
  weatherSensitive : Bool
  facilityDependent : Bool
  prioritizePathQuality : Bool
  needs : List (String × Bool)
  preferredDistance : Option ℚ
  difficultyLevel : Option String
  interests : Option (List String)
  preferredDuration : Option ℚ
  deriving DecidableEq

/-- The scoring context: `hour` stands for `context.time.getHours()`. -/
structure Context where
  weather : Weather
  hour : ℕ
  season : Option String
  deriving DecidableEq

/-- The five dimension weights. -/
structure Weights where
  environment : ℚ
  wildlife : ℚ
  facility : ℚ
  path : ℚ
  personal : ℚ
  deriving DecidableEq

/-- The per-dimension breakdown returned by `calculateScore`. -/
structure Breakdown where
  weather : ℚ
  wildlife : ℚ
  facility : ℚ
  path : ℚ
  personal : ℚ
  deriving DecidableEq

/-- `this.defaultWeights` from the `RouteScorer` constructor. -/
def defaultWeights : Weights :=
  { environment := 0.3, wildlife := 0.25, facility := 0.2, path := 0.15, personal := 0.1 }

/-- `this.wildlifePatterns` (active hours per species), in object-key
insertion order. -/
def wildlifePatterns : List (String × List ℕ) :=
  [("birds", [6, 7, 8, 17, 18, 19]),
   ("squirrels", [8, 9, 10, 15, 16, 17]),
   ("ducks", [7, 8, 9, 16, 17, 18]),
   ("swans", [7, 8, 9, 10, 16, 17, 18])]

/-- `wildlifeData[species]` lookup. -/
def wildlifeDataGet (wd : WildlifeData) (sp : String) : Option ℚ :=
  if sp = "birds" then wd.birds
  else if sp = "squirrels" then wd.squirrels
  else if sp = "ducks" then wd.ducks
  else if sp = "swans" then wd.swans
  else none

/-- `getTimeBasedProbability(hour, wildlifeData)`. -/
def getTimeBasedProbability (hour : ℕ) (wd : WildlifeData) : ℚ :=
  let probability :=
    wildlifePatterns.foldl
      (fun acc sp =>
        if hour ∈ sp.2 then acc + jsOrQ (wildlifeDataGet wd sp.1) 0.2 else acc)
      0
  min 1 probability

/-- `seasonalMultipliers[season] || seasonalMultipliers.spring`, then
`multipliers[speciesName] || 1.0`. -/
def multTable (season : String) (sp : String) : ℚ :=
  if season = "spring" then
    if sp = "birds" then 1.2 else if sp = "squirrels" then 1.0
    else if sp = "ducks" then 1.1 else if sp = "swans" then 0.9 else 1.0
  else if season = "summer" then
    if sp = "birds" then 1.0 else if sp = "squirrels" then 1.2
    else if sp = "ducks" then 0.8 else if sp = "swans" then 0.8 else 1.0
  else if season = "autumn" then
    if sp = "birds" then 1.1 else if sp = "squirrels" then 1.3
    else if sp = "ducks" then 1.0 else if sp = "swans" then 1.0 else 1.0
  else if season = "winter" then
    if sp = "birds" then 0.7 else if sp = "squirrels" then 0.6
    else if sp = "ducks" then 1.2 else if sp = "swans" then 1.3 else 1.0
  else
    if sp = "birds" then 1.2 else if sp = "squirrels" then 1.0
    else if sp = "ducks" then 1.1 else if sp = "swans" then 0.9 else 1.0

/-- `getSeasonalProbability(season, species)`. -/
def getSeasonalProbability (season : String) (species : List String) : ℚ :=
  min 1 (species.foldl (fun acc sp => acc + multTable season sp * 0.2) 0)

/-- `calculateWildlifeLocationScore(route)`. -/
def calculateWildlifeLocationScore (r : Route) : ℚ :=
  let score : ℚ := 0.3
  let score := if r.nearWater then score + 0.3 else score
  let score := score + jsOrQ r.vegetationCoverage 0.5 * 0.4
  let score := score + (1 - jsOrQ r.crowdDensity 0.5) * 0.3
  min 1 score

/-- `calculateWildlifeScore(route, currentTime, season)`; `hour` is
`currentTime.getHours()`. -/
def calculateWildlifeScore (r : Route) (hour : ℕ) (season : String) : ℚ :=
  let timeScore := getTimeBasedProbability hour r.wildlifeData
  let seasonScore := getSeasonalProbability season r.species
  let historicalScore := jsOrQ r.wildlifeHistory 0.6
  let contributionScore : ℚ := min 1 ((r.recentSightings : ℚ) / 10)
  let locationScore := calculateWildlifeLocationScore r
  timeScore * 0.25 + seasonScore * 0.2 + historicalScore * 0.25 +
    contributionScore * 0.15 + locationScore * 0.15

/-- `calculateWeatherScore(route, weatherData)`. -/
def calculateWeatherScore (r : Route) (w : Weather) : ℚ :=
  let precipitation := w.precipitation.getD 0
  let temperature := w.temperature.getD 15
  let windSpeed := w.windSpeed.getD 5
  let humidity := w.humidity.getD 60
  let sunny := w.sunny.getD true
  let score : ℚ := 0.5
  let score :=
    if 0 < precipitation then
      let s := jsOrQ r.shelterCoverage 0.3 * 0.8
      if 5 < precipitation then s * 0.6
      else if 2 < precipitation then s * 0.8
      else s
    else score
  let score :=
    if sunny ∧ 25 < temperature then
      let s := jsOrQ r.shadeCoverage 0.4 * 0.9
      if 30 < temperature then s * 0.7 else s
    else score
  let score :=
    if 15 ≤ temperature ∧ temperature ≤ 25 ∧ precipitation = 0 then
      max score 0.8
    else score
  let score :=
    if 15 < windSpeed then score * (1 - jsOrQ r.exposureLevel 0.5 * 0.3) else score
  let score := if 80 < humidity then score * 0.9 else score
  max 0 (min 1 score)

/-- `calculateFacilityDistribution(facilities, route)`. -/
def calculateFacilityDistribution (facilities : List Facility) (r : Route) : ℚ :=
  if facilities.length = 0 then 0
  else
    let routeLength := jsq r.distance 1000
    let idealSpacing := routeLength / max 1 (facilities.length : ℚ)
    let actualSpacing := routeLength / (facilities.length : ℚ)
    let uniformity := 1 - |idealSpacing - actualSpacing| / idealSpacing
    max 0 (min 1 uniformity)

/-- `calculatePersonalFacilityScore(facilities, userNeeds)`; the forEach
counters are expressed as filter lengths. -/
def calculatePersonalFacilityScore (facilities : List Facility)
    (userNeeds : List (String × Bool)) : ℚ :=
  if userNeeds = [] then 0.5
  else
    let totalNeeds := (userNeeds.filter (fun n => n.2)).length
    let score :=
      (userNeeds.filter
        (fun n => n.2 && facilities.any (fun f => f.type == n.1))).length
    if 0 < totalNeeds then (score : ℚ) / (totalNeeds : ℚ) else 0.5

/-- `calculateFacilityStatus(facilities)`. -/
def calculateFacilityStatus (facilities : List Facility) : ℚ :=
  if facilities = [] then 0.5
  else
    ((facilities.filter
        (fun f => f.status != "closed" && f.status != "maintenance")).length : ℚ) /
      (facilities.length : ℚ)

/-- `calculateFacilityScore(route, userNeeds)`. -/
def calculateFacilityScore (r : Route) (userNeeds : List (String × Bool)) : ℚ :=
  let facilities := r.facilities
  let basicScore :=
    (["toilet", "bench", "water"].foldl
      (fun sum t =>
        let count : ℚ := ((facilities.filter (fun f => f.type == t)).length : ℚ)
        let density := count / max 1 (jsq r.distance 1000 / 1000)
        sum + min 1 (density / 2))
      0) / 3
  let accessibilityScore := calculateFacilityDistribution facilities r
  let personalScore := calculatePersonalFacilityScore facilities userNeeds
  let statusScore := calculateFacilityStatus facilities
  basicScore * 0.3 + accessibilityScore * 0.25 + personalScore * 0.25 +
    statusScore * 0.2

/-- `calculatePathQuality(route)`. -/
def calculatePathQuality (r : Route) : ℚ :=
  let score : ℚ := 0.5
  let score := score + jsOrQ r.surfaceQuality 0.7 * 0.3
  let gradientScore := max 0 (1 - jsOrQ r.gradient 0.05 * 10)
  let score := score + gradientScore * 0.2
  let score := score + jsOrQ r.safety 0.8 * 0.3
  let score := score + jsOrQ r.scenery 0.6 * 0.2
  min 1 score

/-- `calculatePersonalPreference(route, preferences)`.  The JS early return
for an empty preferences object is omitted: with every preference field
absent none of the branches below fires and the result is the same `0.5`. -/
def calculatePersonalPreference (r : Route) (p : Preferences) : ℚ :=
  let score : ℚ := 0.5
  let score :=
    if jsTruthyQ p.preferredDistance then
      let pd := p.preferredDistance.getD 0
      score + max 0 (1 - |jsq r.distance 1000 - pd| / pd) * 0.3
    else score
  let score :=
    if jsTruthyS p.difficultyLevel then
      let matchScore : ℚ :=
        if jsOrS r.difficulty "easy" = p.difficultyLevel.getD "" then 1 else 0.5
      score + matchScore * 0.2
    else score
  let score :=
    match p.interests, r.themes with
    | some interests, some themes =>
      let commonInterests := interests.filter (fun i => themes.contains i)
      score + (commonInterests.length : ℚ) / max 1 (interests.length : ℚ) * 0.3
    | _, _ => score
  let score :=
    if jsTruthyQ p.preferredDuration then
      let pd := p.preferredDuration.getD 0
      score + max 0 (1 - |jsq r.estimatedTime 30 - pd| / pd) * 0.2
    else score
  min 1 score

/-- `adjustWeights(preferences)`. -/
def adjustWeights (p : Preferences) : Weights :=
  let w := defaultWeights
  let w :=
    if p.prioritizeWildlife then
      { w with wildlife := w.wildlife + 0.15, environment := w.environment - 0.1,
               facility := w.facility - 0.05 }
    else w
  let w :=
    if p.weatherSensitive then
      { w with environment := w.environment + 0.2, wildlife := w.wildlife - 0.1,
               path := w.path - 0.1 }
    else w
  let w :=
    if p.facilityDependent then
      { w with facility := w.facility + 0.15, wildlife := w.wildlife - 0.05,
               path := w.path - 0.1 }
    else w
  let w :=
    if p.prioritizePathQuality then
      { w with path := w.path + 0.15, personal := w.personal - 0.05,
               environment := w.environment - 0.1 }
    else w
  w

/-- `generateReasons(...)`: ordered pushes, capped at 3. -/
def generateReasons (weatherScore wildlifeScore facilityScore pathScore
    personalScore : ℚ) (p : Preferences) : List String :=
  let reasons : List String := []
  let reasons :=
    if 0.8 < weatherScore then reasons ++ ["🌤️ 当前天气条件非常适合此路线"]
    else if weatherScore < 0.4 then reasons ++ ["⛈️ 天气条件一般，建议关注遮蔽设施"]
    else reasons
  let reasons :=
    if 0.7 < wildlifeScore then reasons ++ ["🦋 野生动物活跃度高，观赏机会多"]
    else if 0.5 < wildlifeScore then reasons ++ ["🐿️ 有机会遇到野生动物"]
    else reasons
  let reasons :=
    if 0.8 < facilityScore then reasons ++ ["🚻 设施完善，便民服务齐全"]
    else if facilityScore < 0.4 then reasons ++ ["⚠️ 设施较少，建议提前准备"]
    else reasons
  let reasons :=
    if 0.8 < pathScore then reasons ++ ["🛤️ 路径状况良好，行走舒适"]
    else if pathScore < 0.5 then reasons ++ ["⚡ 路径有一定挑战性"]
    else reasons
  let reasons :=
    if 0.7 < personalScore then reasons ++ ["❤️ 符合您的个人偏好"] else reasons
  let reasons :=
    if p.prioritizeWildlife ∧ 0.6 < wildlifeScore then
      reasons ++ ["🎯 推荐给野生动物爱好者"]
    else reasons
  let reasons :=
    if p.weatherSensitive ∧ 0.7 < weatherScore then
      reasons ++ ["☂️ 天气友好路线"]
    else reasons
  reasons.take 3

/-- The record returned by `calculateScore`. -/
structure ScoreResult where
  total : ℚ
  breakdown : Breakdown
  weights : Weights
  reasons : List String
  deriving DecidableEq

/-- `calculateScore(route, preferences, context)`. -/
def calculateScore (r : Route) (p : Preferences) (c : Context) : ScoreResult :=
  let weatherScore := calculateWeatherScore r c.weather
  let wildlifeScore := calculateWildlifeScore r c.hour (jsOrS c.season "spring")
  let facilityScore := calculateFacilityScore r p.needs
  let pathScore := calculatePathQuality r
  let personalScore := calculatePersonalPreference r p
  let weights := adjustWeights p
  let totalScore :=
    weatherScore * weights.environment + wildlifeScore * weights.wildlife +
      facilityScore * weights.facility + pathScore * weights.path +
      personalScore * weights.personal
  { total := round2 totalScore,
    breakdown :=
      { weather := round2 weatherScore, wildlife := round2 wildlifeScore,
        facility := round2 facilityScore, path := round2 pathScore,
        personal := round2 personalScore },
    weights := weights,
    reasons :=
      generateReasons weatherScore wildlifeScore facilityScore pathScore
        personalScore p }

/-- The user filter object consumed by `recommendRoutes` /
`meetsBasicCriteria`. -/
structure Filters where
  maxDistance : Option ℚ
  minDistance : Option ℚ
  maxDuration : Option ℚ
  difficulty : Option String
  accessible : Bool
  weather : Option Weather
  deriving DecidableEq

/-- `meetsBasicCriteria(route, filters)`; each guard tests JS truthiness of
the filter field first, exactly as `filters.x && ...` does. -/
def meetsBasicCriteria (r : Route) (f : Filters) : Bool :=
  if jsTruthyQ f.maxDistance && decide (f.maxDistance.getD 0 < r.distance) then false
  else if jsTruthyQ f.minDistance && decide (r.distance < f.minDistance.getD 0) then false
  else if jsTruthyQ f.maxDuration && decide (f.maxDuration.getD 0 < r.estimatedTime) then false
  else if jsTruthyS f.difficulty && decide (r.difficulty ≠ some (f.difficulty.getD "")) then false
  else if f.accessible && !r.accessible then false
  else true

/-- The object `recommendRoutes` builds per route (`{...route, score, ...}`);
the spread route is kept as the `route` field. -/
structure ScoredRoute where
  route : Route
  score : ℚ
  breakdown : Breakdown
  weights : Weights
  reasons : List String
  distanceFromUser : Option ℚ
  distanceScore : ℚ
  deriving DecidableEq

/-- The sort comparator inside `recommendRoutes`
(`(a, b) => {... return scoreDiff; }`). -/
def cmpRoutes (a b : ScoredRoute) : ℚ :=
  let scoreDiff := b.score - a.score
  if |scoreDiff| < 0.1 then a.distanceScore - b.distanceScore else scoreDiff

/-- `areRoutesSimilar(route1, route2)` (called on the scored/spread route
objects).  Routes carry positive distances (meters), so the JS `NaN` case
(`0/0` when both distances are `0`) does not arise for the data model; ℚ
division by zero yields `0` there. -/
def areRoutesSimilar (r1 r2 : ScoredRoute) : Bool :=
  let distanceSimilarity :=
    |r1.route.distance - r2.route.distance| / max r1.route.distance r2.route.distance
  let themes1 := jsOrL r1.route.themes
  let themes2 := jsOrL r2.route.themes
  let commonThemes := themes1.filter (fun t => themes2.contains t)
  let themeSimilarity :=
    (commonThemes.length : ℚ) / max (themes1.length : ℚ) (max (themes2.length : ℚ) 1)
  decide (distanceSimilarity < 0.2) && decide (0.6 < themeSimilarity)

/-- The diversity step of `recommendRoutes`: take the top 2 of the ranked
list; if they are similar, substitute the first later entry that is not
similar to the top pick (`for (let i = 2; ...)`). -/
def diversifyTop2 (sortedRoutes : List ScoredRoute) : List ScoredRoute :=
  let top2 := sortedRoutes.take 2
  match top2 with
  | [a, b] =>
    if areRoutesSimilar a b then
      match (sortedRoutes.drop 2).find? (fun r => !areRoutesSimilar a r) with
      | some r => [a, r]
      | none => [a, b]
    else [a, b]
  | _ => top2

/-- `getCurrentWeather()` (the simulated constant reading). -/
def getCurrentWeather : Weather :=
  { temperature := some 18, precipitation := some 0, windSpeed := some 8,
    humidity := some 65, sunny := some true }

/-- `getCurrentSeason()`; `month` is `new Date().getMonth() + 1`. -/
def getCurrentSeason (month : ℕ) : String :=
  if 3 ≤ month ∧ month ≤ 5 then "spring"
  else if 6 ≤ month ∧ month ≤ 8 then "summer"
  else if 9 ≤ month ∧ month ≤ 11 then "autumn"
  else "winter"

instance : DecidableRel (fun a b : ScoredRoute => cmpRoutes a b ≤ 0) :=
  fun _ _ => inferInstanceAs (Decidable (_ ≤ _))

/-- `recommendRoutes(allRoutes, userFilters, userLocation, userProfile)`.

Parameters standing for the impure parts of the JS function: `geoDist` is
`this.calculateDistance` (floating-point trig, embedded over ℝ separately),
`hour`/`month` are the wall-clock readings behind `new Date()` /
`getCurrentSeason()`.  JS `Array.prototype.sort` with the comparator is
modelled by a stable insertion sort on `cmpRoutes _ _ ≤ 0`. -/
def recommendRoutes (geoDist : GeoPoint → GeoPoint → ℚ) (hour month : ℕ)
    (allRoutes : List Route) (userFilters : Filters)
    (userLocation : Option GeoPoint) (userProfile : Preferences) :
    List ScoredRoute :=
  let eligibleRoutes := allRoutes.filter (fun r => meetsBasicCriteria r userFilters)
  if eligibleRoutes = [] then []
  else
    let context : Context :=
      { weather := match userFilters.weather with
                   | some w => w
                   | none => getCurrentWeather,
        hour := hour,
        season := some (getCurrentSeason month) }
    let scoredRoutes := eligibleRoutes.map (fun route =>
      let scoreResult := calculateScore route userProfile context
      let distanceScore : ℚ :=
        match userLocation with
        | some loc => max 0 (1 - geoDist loc route.startPoint / 5000)
        | none => 0.5
      { route := route, score := scoreResult.total,
        breakdown := scoreResult.breakdown, weights := scoreResult.weights,
        reasons := scoreResult.reasons,
        distanceFromUser := userLocation.map (fun loc => geoDist loc route.startPoint),
        distanceScore := distanceScore })
    let sortedRoutes :=
      List.insertionSort (fun a b => cmpRoutes a b ≤ 0) scoredRoutes
    diversifyTop2 sortedRoutes

/-! ### Trail graph (parksense-mobile-complete.js)

Node ids `node_k` (strings built from the monotone counter) are modelled by
the counter value `k` itself.  `latlng` pairs are `(lat, lng)`. -/

/-- A graph node: `{id, latlng, adj}`; `adj` is the JS `Map` neighbor-id →
edge weight, as an association list in insertion order. -/
structure TrailNode where
  id : ℕ
  latlng : ℚ × ℚ
  adj : List (ℕ × ℚ)
  deriving DecidableEq

/-- An edge record pushed onto `graph.edges` (`from`/`to` are Lean
keywords, hence `fromId`/`toId`). -/
structure TrailEdge where
  fromId : ℕ
  toId : ℕ
  weight : ℚ
  deriving DecidableEq

/-- `{nodes: Map, edges: []}`; the nodes `Map` keeps insertion order, so a
list of nodes (each carrying its key) models it. -/
structure TrailGraph where
  nodes : List TrailNode
  edges : List TrailEdge
  deriving DecidableEq

/-- A GeoJSON feature as read by the builder: geometry type plus the
coordinate list; each coordinate is a `[lng, lat]` position, modelled as a
pair `(c0, c1)` with `c0 = coord[0]` (longitude). -/
structure Feature where
  geomType : String
  coordinates : List (ℚ × ℚ)
  deriving DecidableEq

/-- JS `Map.set` on an adjacency map: overwrite an existing key in place,
otherwise append. -/
def adjSet (adj : List (ℕ × ℚ)) (key : ℕ) (val : ℚ) : List (ℕ × ℚ) :=
  match adj with
  | [] => [(key, val)]
  | (k, v) :: rest =>
    if k = key then (key, val) :: rest else (k, v) :: adjSet rest key val

/-- JS `Map.get` on an adjacency map. -/
def adjGet (adj : List (ℕ × ℚ)) (key : ℕ) : Option ℚ :=
  (adj.find? (fun p => p.1 = key)).map (fun p => p.2)

/-- The `for (let i = 0; i < nodes.length - 1; i++)` loop of
`buildTrailGraph`, one line at a time: connect consecutive nodes both ways
and push the edge record.  The head node is finished and emitted; the
second node (with the backward adjacency entry added) is threaded into the
recursive call, matching the mutation of the shared node objects. -/
def chainLine (dist : ℚ × ℚ → ℚ × ℚ → ℚ) (a : TrailNode) :
    List TrailNode → List TrailNode × List TrailEdge
  | [] => ([a], [])
  | b :: tl =>
    let d := dist a.latlng b.latlng
    let a' := { a with adj := adjSet a.adj b.id d }
    let b' := { b with adj := adjSet b.adj a.id d }
    let (ns, es) := chainLine dist b' tl
    (a' :: ns, ⟨a.id, b.id, d⟩ :: es)

/-- The body of the `trailFeatures.forEach` in `buildTrailGraph`: for a
`LineString`, one node per coordinate (`latlng = [coord[1], coord[0]]`,
ids from the build-wide counter), then the consecutive-pair loop
(`chainLine`); other geometry types are skipped. -/
def buildStep (dist : ℚ × ℚ → ℚ × ℚ → ℚ) (acc : TrailGraph × ℕ)
    (feature : Feature) : TrailGraph × ℕ :=
  let (graph, nodeId) := acc
  if feature.geomType = "LineString" then
    let coords := feature.coordinates
    let lineNodes := coords.enum.map
      (fun ic => ({ id := nodeId + ic.1, latlng := (ic.2.2, ic.2.1),
                    adj := [] } : TrailNode))
    match lineNodes with
    | [] => (graph, nodeId)
    | a :: rest =>
      let (ns, es) := chainLine dist a rest
      ({ nodes := graph.nodes ++ ns, edges := graph.edges ++ es },
        nodeId + coords.length)
  else (graph, nodeId)

/-- `buildTrailGraph(trailFeatures)`: one node per coordinate of each
`LineString` (ids from a build-wide counter), consecutive nodes connected
by undirected weighted edges.  `dist` is the `haversine` the JS closes over
(floating-point trig, embedded over ℝ separately). -/
def buildTrailGraph (dist : ℚ × ℚ → ℚ × ℚ → ℚ) (features : List Feature) :
    TrailGraph :=
  (features.foldl (buildStep dist) (⟨[], []⟩, 0)).1

/-- The node-id key set of the graph, in `Map` iteration (insertion)
order: `trailGraph.nodes.keys()`. -/
def nodeIds (g : TrailGraph) : List ℕ := g.nodes.map (fun n => n.id)

/-- `trailGraph.nodes.get(id)`. -/
def getNode (g : TrailGraph) (id : ℕ) : Option TrailNode :=
  g.nodes.find? (fun n => n.id = id)

/-- `a < b` where `none` stands for the JS `Infinity` distance estimate
(`Infinity < Infinity` is false). -/
def ltInf : Option ℚ → Option ℚ → Bool
  | some a, some b => a < b
  | some _, none => true
  | none, _ => false

/-- The selection scan of `dijkstra`: the unvisited node with the strictly
smallest current distance estimate (first wins on ties), together with that
distance; `(none, _)` when every unvisited estimate is `Infinity`. -/
def selectMin (dist : ℕ → Option ℚ) (unvisited : List ℕ) :
    Option ℕ × Option ℚ :=
  unvisited.foldl
    (fun acc id => if ltInf (dist id) acc.2 then (some id, dist id) else acc)
    (none, none)

/-- The `while (unvisited.size > 0)` loop of `dijkstra`, with fuel
(`unvisited` shrinks by one per iteration, so `unvisited.length` fuel is
enough).  Distance and predecessor maps are functions `ℕ → Option _`
(`none` = `Infinity` / no predecessor). -/
def dijkstraLoop (g : TrailGraph) (endId : ℕ) :
    ℕ → List ℕ → (ℕ → Option ℚ) → (ℕ → Option ℕ) →
    (ℕ → Option ℚ) × (ℕ → Option ℕ)
  | 0, _, dist, prev => (dist, prev)
  | fuel + 1, unvisited, dist, prev =>
    if unvisited = [] then (dist, prev)
    else
      match selectMin dist unvisited with
      | (none, _) => (dist, prev)
      | (some current, _) =>
        let unvisited' := unvisited.erase current
        if current = endId then (dist, prev)
        else
          match getNode g current, dist current with
          | some node, some dc =>
            let (dist', prev') := node.adj.foldl
              (fun (dp : (ℕ → Option ℚ) × (ℕ → Option ℕ)) nw =>
                if unvisited'.contains nw.1 then
                  let alt := dc + nw.2
                  if ltInf (some alt) (dp.1 nw.1) then
                    (fun id => if id = nw.1 then some alt else dp.1 id,
                     fun id => if id = nw.1 then some current else dp.2 id)
                  else dp
                else dp)
              (dist, prev)
            dijkstraLoop g endId fuel unvisited' dist' prev'
          | _, _ => (dist, prev)

/-- The path reconstruction loop: walk predecessors backward from `current`
(`path.unshift` builds the list source-first).  Predecessor chains are
acyclic, so `g.nodes.length` fuel covers them. -/
def walkPath (prev : ℕ → Option ℕ) : ℕ → ℕ → List ℕ
  | 0, current => [current]
  | fuel + 1, current =>
    match prev current with
    | none => [current]
    | some p => walkPath prev fuel p ++ [current]

/-- `dijkstra(startId, endId)` over an explicit graph (the JS reads the
module-global `trailGraph`).  Returns `none` both when no path exists and
when reconstruction yields only the target (`path.length > 1 ? path :
null`). -/
def dijkstra (g : TrailGraph) (startId endId : ℕ) : Option (List ℕ) :=
  let unvisited := nodeIds g
  let distances : ℕ → Option ℚ := fun id => if id = startId then some 0 else none
  let result := dijkstraLoop g endId unvisited.length unvisited distances
    (fun _ => none)
  let path := walkPath result.2 g.nodes.length endId
  if 1 < path.length then some path else none

/-- The undirected-edge invariant of a trail graph: both endpoints of every
edge record are present in the node mapping, and each lists the other in
its adjacency with the edge's weight. -/
def edgesMirrored (g : TrailGraph) : Prop :=
  ∀ e ∈ g.edges,
    (∃ na, getNode g e.fromId = some na ∧ adjGet na.adj e.toId = some e.weight) ∧
    (∃ nb, getNode g e.toId = some nb ∧ adjGet nb.adj e.fromId = some e.weight)

/-! ### Concrete sample inputs used by the theorems below -/

/-- A route with every optional scoring attribute absent. -/
def mkRoute (id : String) (d : ℚ) (ts : Option (List String)) (pt : GeoPoint) :
    Route :=
  { id := id, distance := d, estimatedTime := 30, difficulty := none,
    themes := ts, accessible := false, startPoint := pt, facilities := [],
    shelterCoverage := none, shadeCoverage := none, exposureLevel := none,
    wildlifeData := ⟨none, none, none, none⟩, species := [],
    wildlifeHistory := none, recentSightings := 0, nearWater := false,
    vegetationCoverage := none, crowdDensity := none, surfaceQuality := none,
    gradient := none, safety := none, scenery := none }

/-- A scored wrapper around a route with neutral metadata. -/
def mkScored (r : Route) : ScoredRoute :=
  { route := r, score := 0, breakdown := ⟨0, 0, 0, 0, 0⟩,
    weights := defaultWeights, reasons := [], distanceFromUser := none,
    distanceScore := 0.5 }

/-- An empty preferences object (`{}`). -/
def emptyPrefs : Preferences :=
  { prioritizeWildlife := false, weatherSensitive := false,
    facilityDependent := false, prioritizePathQuality := false, needs := [],
    preferredDistance := none, difficultyLevel := none, interests := none,
    preferredDuration := none }

/-- An empty filter object (`{}`). -/
def emptyFilters : Filters :=
  { maxDistance := none, minDistance := none, maxDuration := none,
    difficulty := none, accessible := false, weather := none }

/-- Preferences with exactly `weatherSensitive` and `facilityDependent`
set. -/
def prefsWSFD : Preferences :=
  { emptyPrefs with weatherSensitive := true, facilityDependent := true }

/-- An optionally-present fraction field lies in `[0,1]` when supplied. -/
def inUnit (o : Option ℚ) : Bool :=
  match o with
  | none => true
  | some x => decide (0 ≤ x) && decide (x ≤ 1)

/-- A route is valid when every supplied fraction-valued attribute (the
coverage/quality/probability fields the spec's data model constrains to
`[0,1]`) lies in `[0,1]`. -/
def validRoute (r : Route) : Bool :=
  inUnit r.shelterCoverage && inUnit r.shadeCoverage &&
    inUnit r.exposureLevel && inUnit r.vegetationCoverage &&
    inUnit r.crowdDensity && inUnit r.wildlifeHistory &&
    inUnit r.surfaceQuality && inUnit r.gradient && inUnit r.safety &&
    inUnit r.scenery && inUnit r.wildlifeData.birds &&
    inUnit r.wildlifeData.squirrels && inUnit r.wildlifeData.ducks &&
    inUnit r.wildlifeData.swans

/-- The route used in the rounding counterexample: wildlife history `0.096`
and location factors chosen so the raw wildlife subscore is `0.075`. -/
def routeC5 : Route :=
  { mkRoute "r5" 1000 none ⟨0, 0⟩ with
    wildlifeHistory := some 0.096, vegetationCoverage := some 0.1,
    crowdDensity := some 1 }

/-- A mild clear-weather context (temperature 15, no rain) at hour 0. -/
def ctxC5 : Context :=
  { weather := { temperature := some 15, precipitation := some 0,
                 windSpeed := some 5, humidity := some 60,
                 sunny := some true },
    hour := 0, season := none }

/-! ### Real-valued geodesic distances

The two JS great-circle functions use floating-point trigonometry; they are
embedded over `ℝ` (real-number semantics of the same formulas). -/

open Classical in
/-- JS `Math.atan2(y, x)` over `ℝ` (standard two-argument arctangent,
shared by both embedded distance functions). -/
noncomputable def atan2 (y x : ℝ) : ℝ :=
  if 0 < x then Real.arctan (y / x)
  else if x < 0 ∧ 0 ≤ y then Real.arctan (y / x) + Real.pi
  else if x < 0 then Real.arctan (y / x) - Real.pi
  else if 0 < y then Real.pi / 2
  else if y < 0 then -(Real.pi / 2)
  else 0

/-- `haversine(p1, p2)` from the map module; each point is a `[lat, lng]`
array, modelled as a pair. -/
noncomputable def haversine (p1 p2 : ℝ × ℝ) : ℝ :=
  let R : ℝ := 6371000
  let lat1 := p1.1 * Real.pi / 180
  let lng1 := p1.2 * Real.pi / 180
  let lat2 := p2.1 * Real.pi / 180
  let lng2 := p2.2 * Real.pi / 180
  let dlat := lat2 - lat1
  let dlng := lng2 - lng1
  let A := Real.sin (dlat / 2) ^ 2 +
    Real.cos lat1 * Real.cos lat2 * Real.sin (dlng / 2) ^ 2
  2 * R * atan2 (Real.sqrt A) (Real.sqrt (1 - A))

/-- A `{lat, lng}` object over `ℝ` as consumed by
`RouteScorer.calculateDistance`. -/
structure GeoPointR where
  lat : ℝ
  lng : ℝ

/-- `RouteScorer.calculateDistance(point1, point2)` (the scorer's own
haversine implementation, `R = 6371e3`). -/
noncomputable def calculateDistance (point1 point2 : GeoPointR) : ℝ :=
  let R : ℝ := 6371e3
  let f1 := point1.lat * Real.pi / 180
  let f2 := point2.lat * Real.pi / 180
  let df := (point2.lat - point1.lat) * Real.pi / 180
  let dl := (point2.lng - point1.lng) * Real.pi / 180
  let a := Real.sin (df / 2) * Real.sin (df / 2) +
    Real.cos f1 * Real.cos f2 * Real.sin (dl / 2) * Real.sin (dl / 2)
  let c := 2 * atan2 (Real.sqrt a) (Real.sqrt (1 - a))
  R * c

/-! ### C3 / C9 — weight adjustment -/

/-- C3 counterexample: with `weatherSensitive` and `facilityDependent` both
set (and `prioritizePathQuality` unset) the adjusted `path` weight is
`0.15 − 0.10 − 0.10 = −0.05`, outside `[0,1]`, refuting the claim that
every weight of the returned profile lies in `[0,1]`. -/
theorem adjustWeights_path_negative :
    ¬ (0 ≤ (adjustWeights prefsWSFD).path) := by with_unfolding_all decide

/-- C3 (amended): for every preferences object, the `environment`,
`wildlife`, `facility` and `personal` weights returned by `adjustWeights`
lie in `[0,1]`, and the `path` weight lies in `[−0.05, 1]`. -/
theorem adjustWeights_range (p : Preferences) :
    (0 ≤ (adjustWeights p).environment ∧ (adjustWeights p).environment ≤ 1) ∧
    (0 ≤ (adjustWeights p).wildlife ∧ (adjustWeights p).wildlife ≤ 1) ∧
    (0 ≤ (adjustWeights p).facility ∧ (adjustWeights p).facility ≤ 1) ∧
    (0 ≤ (adjustWeights p).personal ∧ (adjustWeights p).personal ≤ 1) ∧
    (-0.05 ≤ (adjustWeights p).path ∧ (adjustWeights p).path ≤ 1) := by
  obtain ⟨pw, ws, fd, pq, _, _, _, _, _⟩ := p
  cases pw <;> cases ws <;> cases fd <;> cases pq <;>
    norm_num [adjustWeights, defaultWeights]

/-- C9: the four preference deltas each sum to zero, so for every
preferences object the five weights returned by `adjustWeights` sum to
exactly the default total `1`. -/
theorem adjustWeights_sum_eq_one (p : Preferences) :
    (adjustWeights p).environment + (adjustWeights p).wildlife +
      (adjustWeights p).facility + (adjustWeights p).path +
      (adjustWeights p).personal = 1 := by
  obtain ⟨pw, ws, fd, pq, _, _, _, _, _⟩ := p
  cases pw <;> cases ws <;> cases fd <;> cases pq <;>
    norm_num [adjustWeights, defaultWeights]

/-! ### C2 — ranking tie-break direction -/

set_option maxRecDepth 100000 in
/-- C2: two routes that score identically (they differ only in id, themes
and start point), with the user 100 m from one start and 4900 m from the
other.  The near route gets distance score `0.98`, the far one `0.02`; the
comparator's tie branch `a.distanceScore - b.distanceScore` sorts ascending
by distance score, so `recommendRoutes` ranks the FAR route first — against
the claim (and the code's own `距离越近越好` comment) that the nearer route
is ranked ahead. -/
theorem recommend_tie_ranks_far_route_first :
    (recommendRoutes (fun _ q => q.lat) 0 1
        [mkRoute "near" 1000 (some ["a"]) ⟨100, 0⟩,
         mkRoute "far" 1000 (some ["b"]) ⟨4900, 0⟩]
        emptyFilters (some ⟨0, 0⟩) emptyPrefs).map
      (fun sr => (sr.route.id, sr.distanceScore)) =
      [("far", 0.02), ("near", 0.98)] := by with_unfolding_all decide

/-! ### C4 — short line geometries do not raise -/

/-- C4 counterexample: the builder has no error path at all; on a
`LineString` with a single coordinate it simply returns a graph holding
that one (isolated, coordinate-swapped) node and no edges, rather than
raising an error. -/
theorem buildTrailGraph_short_line_no_error :
    buildTrailGraph (fun _ _ => 0) [⟨"LineString", [(3, 7)]⟩] =
      ⟨[⟨0, (7, 3), []⟩], []⟩ := by with_unfolding_all decide

/-- C4 (amended): for every distance function and every single-coordinate
`LineString`, `buildTrailGraph` accepts the input and produces the graph
with that lone node and no edges (no error is raised). -/
theorem buildTrailGraph_short_line_graph (dist : ℚ × ℚ → ℚ × ℚ → ℚ)
    (c : ℚ × ℚ) :
    buildTrailGraph dist [⟨"LineString", [c]⟩] =
      ⟨[⟨0, (c.2, c.1), []⟩], []⟩ := by
  rfl

/-! ### C7 — diversity substitution -/

/-- C7: whenever the two top-ranked routes are similar, the second result
is the first route further down the ranked list that is not similar to the
top pick, and the similar pair is kept as-is when no such route exists
(both cases captured by `Option.getD`). -/
theorem diversify_replaces_similar_second (a b : ScoredRoute)
    (rest : List ScoredRoute) (hsim : areRoutesSimilar a b = true) :
    diversifyTop2 (a :: b :: rest) =
      [a, (rest.find? (fun r => !areRoutesSimilar a r)).getD b] := by
  simp only [diversifyTop2, List.take, List.drop, hsim, if_true]
  cases h : rest.find? (fun r => !areRoutesSimilar a r) <;> simp [h]

/-- C7 witness: two similar top routes (distances 1000 vs 1050, full theme
overlap) and one dissimilar third route; the third replaces the second. -/
theorem diversify_replaces_similar_second_witness :
    areRoutesSimilar (mkScored (mkRoute "a" 1000 (some ["n", "w"]) ⟨0, 0⟩))
        (mkScored (mkRoute "b" 1050 (some ["n", "w"]) ⟨0, 0⟩)) = true ∧
    diversifyTop2
        [mkScored (mkRoute "a" 1000 (some ["n", "w"]) ⟨0, 0⟩),
         mkScored (mkRoute "b" 1050 (some ["n", "w"]) ⟨0, 0⟩),
         mkScored (mkRoute "c" 5000 (some ["h"]) ⟨0, 0⟩)] =
      [mkScored (mkRoute "a" 1000 (some ["n", "w"]) ⟨0, 0⟩),
        ([mkScored (mkRoute "c" 5000 (some ["h"]) ⟨0, 0⟩)].find?
            (fun r =>
              !areRoutesSimilar
                (mkScored (mkRoute "a" 1000 (some ["n", "w"]) ⟨0, 0⟩)) r)).getD
          (mkScored (mkRoute "b" 1050 (some ["n", "w"]) ⟨0, 0⟩))] :=
  ⟨by with_unfolding_all decide,
    diversify_replaces_similar_second _ _ _ (by with_unfolding_all decide)⟩

/-! ### C1 — `dijkstra(s, s)` -/

/-- Once the selection scan has found the source (estimate `0`), no later
unvisited node (estimate `0` or `Infinity`) replaces it. -/
lemma selectMin_stay (s : ℕ) (dist : ℕ → Option ℚ)
    (hd : ∀ id, dist id = if id = s then some 0 else none) (l : List ℕ) :
    l.foldl
      (fun acc id => if ltInf (dist id) acc.2 then (some id, dist id) else acc)
      (some s, some 0) = (some s, some 0) := by
  induction l with
  | nil => rfl
  | cons a t ih =>
    have ha : ltInf (dist a) (some 0) = false := by
      rw [hd a]
      by_cases h : a = s <;> simp [h, ltInf]
    simp only [List.foldl_cons, ha, Bool.false_eq_true, if_false]
    exact ih

/-- On the initial distance map (`0` at the source, `Infinity` elsewhere),
the selection scan picks the source whenever it is unvisited. -/
lemma selectMin_delta (s : ℕ) (dist : ℕ → Option ℚ)
    (hd : ∀ id, dist id = if id = s then some 0 else none) :
    ∀ l : List ℕ, s ∈ l → selectMin dist l = (some s, some 0) := by
  unfold selectMin
  intro l
  induction l with
  | nil => intro hs; cases hs
  | cons a t ih =>
    intro hs
    by_cases h : a = s
    · subst h
      have hlt : ltInf (dist a) none = true := by rw [hd a]; simp [ltInf]
      simp only [List.foldl_cons, hlt, if_true]
      rw [hd a]
      simp only [if_pos rfl]
      exact selectMin_stay a dist hd t
    · have hmem : s ∈ t := by
        rcases List.mem_cons.mp hs with h1 | h1
        · exact absurd h1.symm h
        · exact h1
      have hlt : ltInf (dist a) none = false := by
        rw [hd a, if_neg h]
        rfl
      simp only [List.foldl_cons, hlt, Bool.false_eq_true, if_false]
      exact ih hmem

/-- When the selection picks the end node itself, the loop stops before
relaxing anything and returns its maps unchanged. -/
lemma dijkstraLoop_select_end (g : TrailGraph) (endId fuel : ℕ)
    (u : List ℕ) (dist : ℕ → Option ℚ) (prev : ℕ → Option ℕ)
    (hu : u ≠ []) (hf : fuel ≠ 0)
    (hsel : selectMin dist u = (some endId, some 0)) :
    dijkstraLoop g endId fuel u dist prev = (dist, prev) := by
  cases fuel with
  | zero => exact absurd rfl hf
  | succ n =>
    simp only [dijkstraLoop]
    rw [if_neg hu, hsel]
    simp

/-- Walking an empty predecessor map yields just the start point. -/
lemma walkPath_none (fuel c : ℕ) : walkPath (fun _ => none) fuel c = [c] := by
  cases fuel <;> rfl

/-- C1 (amended): for every graph and every node id `s` present in it,
`dijkstra(g, s, s)` returns `none`: the very first iteration selects `s`,
hits `current === endId` and stops with an empty predecessor map, so
reconstruction yields the length-1 path `[s]`, which
`path.length > 1 ? path : null` reports as no-path. -/
theorem dijkstra_self_none (g : TrailGraph) (s : ℕ) (hs : s ∈ nodeIds g) :
    dijkstra g s s = none := by
  have hne : nodeIds g ≠ [] := List.ne_nil_of_mem hs
  have hlen : (nodeIds g).length ≠ 0 := by
    simpa [List.length_eq_zero] using hne
  have hsel :
      selectMin (fun id => if id = s then some 0 else none) (nodeIds g) =
        (some s, some 0) :=
    selectMin_delta s _ (fun _ => rfl) (nodeIds g) hs
  simp only [dijkstra]
  rw [dijkstraLoop_select_end g s _ _ _ _ hne hlen hsel]
  simp [walkPath_none]

/-- C1 counterexample: on the two-node graph built from one line, the claim
says `shortestPath(g, 0, 0) = [0]`; the code returns the no-path result
`none` instead. -/
theorem dijkstra_self_counterexample :
    dijkstra (buildTrailGraph (fun _ _ => 1) [⟨"LineString", [(0, 0), (1, 0)]⟩])
      0 0 = none := by with_unfolding_all decide

/-- C1 witness: the amended theorem applied to a concrete graph with node
`0` present. -/
theorem dijkstra_self_none_witness :
    0 ∈ nodeIds (buildTrailGraph (fun _ _ => 2) [⟨"LineString", [(0, 0), (0, 1)]⟩]) ∧
    dijkstra (buildTrailGraph (fun _ _ => 2) [⟨"LineString", [(0, 0), (0, 1)]⟩])
      0 0 = none :=
  ⟨by with_unfolding_all decide, dijkstra_self_none _ 0 (by with_unfolding_all decide)⟩

/-! ### C8 — filtering, top-2 bound, empty short-circuit -/

/-- The diversity step never returns more than two routes. -/
lemma diversifyTop2_length (l : List ScoredRoute) :
    (diversifyTop2 l).length ≤ 2 := by
  rcases l with _ | ⟨a, _ | ⟨b, rest⟩⟩
  · simp [diversifyTop2]
  · simp [diversifyTop2]
  · simp only [diversifyTop2, List.take_succ_cons, List.take_zero]
    split_ifs with h
    · cases hfind : (List.drop 2 (a :: b :: rest)).find?
          (fun r => !areRoutesSimilar a r) <;> simp [hfind]
    · simp

/-- Every route returned by the diversity step comes from the ranked
list. -/
lemma diversifyTop2_mem (l : List ScoredRoute) (x : ScoredRoute)
    (hx : x ∈ diversifyTop2 l) : x ∈ l := by
  rcases l with _ | ⟨a, _ | ⟨b, rest⟩⟩
  · simp [diversifyTop2] at hx
  · simpa [diversifyTop2] using hx
  · simp only [diversifyTop2, List.take_succ_cons, List.take_zero] at hx
    split_ifs at hx with h
    · cases hfind : (List.drop 2 (a :: b :: rest)).find?
          (fun r => !areRoutesSimilar a r) with
      | none =>
        rw [hfind] at hx
        rcases (by simpa using hx : x = a ∨ x = b) with rfl | rfl
        · exact List.mem_cons_self _ _
        · exact List.mem_cons_of_mem _ (List.mem_cons_self _ _)
      | some r =>
        rw [hfind] at hx
        have hr : r ∈ rest := by
          have hmem := List.mem_of_find?_eq_some hfind
          simp only [List.drop_succ_cons, List.drop_zero] at hmem
          exact hmem
        rcases (by simpa using hx : x = a ∨ x = r) with rfl | rfl
        · exact List.mem_cons_self _ _
        · exact List.mem_cons_of_mem _ (List.mem_cons_of_mem _ hr)
    · rcases (by simpa using hx : x = a ∨ x = b) with rfl | rfl
      · exact List.mem_cons_self _ _
      · exact List.mem_cons_of_mem _ (List.mem_cons_self _ _)

/-- C8: `recommendRoutes` returns at most 2 routes, every returned route
passes `meetsBasicCriteria` for the supplied filters, and when no route
survives filtering the result is the empty list. -/
theorem recommend_filters_and_top2 (geoDist : GeoPoint → GeoPoint → ℚ)
    (hour month : ℕ) (allRoutes : List Route) (userFilters : Filters)
    (userLocation : Option GeoPoint) (userProfile : Preferences) :
    (recommendRoutes geoDist hour month allRoutes userFilters userLocation
        userProfile).length ≤ 2 ∧
    (∀ sr ∈ recommendRoutes geoDist hour month allRoutes userFilters
        userLocation userProfile,
      meetsBasicCriteria sr.route userFilters = true) ∧
    (allRoutes.filter (fun r => meetsBasicCriteria r userFilters) = [] →
      recommendRoutes geoDist hour month allRoutes userFilters userLocation
        userProfile = []) := by
  by_cases he : allRoutes.filter (fun r => meetsBasicCriteria r userFilters) = []
  · refine ⟨?_, ?_, fun _ => ?_⟩ <;> simp [recommendRoutes, he]
  · refine ⟨?_, ?_, fun h => absurd h he⟩
    · simp only [recommendRoutes, if_neg he]
      exact diversifyTop2_length _
    · intro sr hsr
      simp only [recommendRoutes, if_neg he] at hsr
      have h1 := diversifyTop2_mem _ _ hsr
      have h2 := (List.perm_insertionSort
        (fun a b : ScoredRoute => cmpRoutes a b ≤ 0) _).mem_iff.mp h1
      obtain ⟨route, hre, hmap⟩ := List.mem_map.mp h2
      have hcrit := (List.mem_filter.mp hre).2
      rw [← hmap]
      simpa using hcrit

/-- C8 witness: the theorem at a concrete call. -/
theorem recommend_filters_and_top2_witness :
    (recommendRoutes (fun _ _ => 0) 8 4 [mkRoute "w" 500 none ⟨0, 0⟩]
        emptyFilters none emptyPrefs).length ≤ 2 ∧
    (∀ sr ∈ recommendRoutes (fun _ _ => 0) 8 4 [mkRoute "w" 500 none ⟨0, 0⟩]
        emptyFilters none emptyPrefs,
      meetsBasicCriteria sr.route emptyFilters = true) ∧
    ([mkRoute "w" 500 none ⟨0, 0⟩].filter
        (fun r => meetsBasicCriteria r emptyFilters) = [] →
      recommendRoutes (fun _ _ => 0) 8 4 [mkRoute "w" 500 none ⟨0, 0⟩]
        emptyFilters none emptyPrefs = []) :=
  recommend_filters_and_top2 (fun _ _ => 0) 8 4 [mkRoute "w" 500 none ⟨0, 0⟩]
    emptyFilters none emptyPrefs

/-! ### C6 — graph construction invariants -/

/-- `Map.get` after a cons. -/
lemma adjGet_cons (k' k : ℕ) (v : ℚ) (rest : List (ℕ × ℚ)) :
    adjGet ((k', v) :: rest) k = if k' = k then some v else adjGet rest k := by
  by_cases h : k' = k <;> simp [adjGet, List.find?_cons, h]

/-- `Map.set` then `Map.get` at the same key. -/
lemma adjGet_adjSet_self (adj : List (ℕ × ℚ)) (key : ℕ) (val : ℚ) :
    adjGet (adjSet adj key val) key = some val := by
  induction adj with
  | nil => simp [adjSet, adjGet_cons]
  | cons p rest ih =>
    rcases p with ⟨k', v⟩
    by_cases h : k' = key
    · simp [adjSet, h, adjGet_cons]
    · simp [adjSet, h, adjGet_cons, ih]

/-- `Map.set` leaves other keys unchanged. -/
lemma adjGet_adjSet_ne (adj : List (ℕ × ℚ)) (key k : ℕ) (val : ℚ)
    (h : k ≠ key) :
    adjGet (adjSet adj key val) k = adjGet adj k := by
  induction adj with
  | nil => simp [adjSet, adjGet_cons, Ne.symm h]
  | cons p rest ih =>
    rcases p with ⟨k', v⟩
    by_cases h2 : k' = key
    · subst h2
      simp [adjSet, adjGet_cons, Ne.symm h]
    · simp [adjSet, h2, adjGet_cons, ih]

/-- The ids of the nodes produced by the consecutive-pair loop are exactly
the input ids, in order. -/
lemma chainLine_fst_ids (dist : ℚ × ℚ → ℚ × ℚ → ℚ) :
    ∀ (rest : List TrailNode) (a : TrailNode),
      ((chainLine dist a rest).1).map (fun n => n.id) =
        a.id :: rest.map (fun n => n.id) := by
  intro rest
  induction rest with
  | nil => intro a; simp [chainLine]
  | cons b tl ih =>
    intro a
    rcases h : chainLine dist { b with adj := adjSet b.adj a.id (dist a.latlng b.latlng) } tl
      with ⟨ns, es⟩
    have hih := ih { b with adj := adjSet b.adj a.id (dist a.latlng b.latlng) }
    rw [h] at hih
    simp [chainLine, h, hih]

/-- One edge per consecutive pair. -/
lemma chainLine_snd_length (dist : ℚ × ℚ → ℚ × ℚ → ℚ) :
    ∀ (rest : List TrailNode) (a : TrailNode),
      ((chainLine dist a rest).2).length = rest.length := by
  intro rest
  induction rest with
  | nil => intro a; simp [chainLine]
  | cons b tl ih =>
    intro a
    rcases h : chainLine dist { b with adj := adjSet b.adj a.id (dist a.latlng b.latlng) } tl
      with ⟨ns, es⟩
    have hih := ih { b with adj := adjSet b.adj a.id (dist a.latlng b.latlng) }
    rw [h] at hih
    simp [chainLine, h, hih]

/-- The head of the produced node list is the input head node, with its id
intact and its adjacency unchanged at every key other than the ids further
down the line. -/
lemma chainLine_head (dist : ℚ × ℚ → ℚ × ℚ → ℚ) (rest : List TrailNode)
    (a : TrailNode) :
    ∃ a' tl', (chainLine dist a rest).1 = a' :: tl' ∧ a'.id = a.id ∧
      ∀ k, k ∉ rest.map (fun n => n.id) → adjGet a'.adj k = adjGet a.adj k := by
  cases rest with
  | nil => exact ⟨a, [], rfl, rfl, fun k _ => rfl⟩
  | cons b tl =>
    rcases h : chainLine dist { b with adj := adjSet b.adj a.id (dist a.latlng b.latlng) } tl
      with ⟨ns, es⟩
    refine ⟨{ a with adj := adjSet a.adj b.id (dist a.latlng b.latlng) }, ns, ?_, rfl, ?_⟩
    · simp [chainLine, h]
    · intro k hk
      have hkb : k ≠ b.id := by
        intro hh
        exact hk (by simp [hh])
      exact adjGet_adjSet_ne _ _ _ _ hkb

/-- Every edge produced by the consecutive-pair loop is mirrored (with the
same weight both ways) in the adjacency of the two produced endpoint
nodes, provided the line's node ids are distinct. -/
lemma chainLine_mirror (dist : ℚ × ℚ → ℚ × ℚ → ℚ) :
    ∀ (rest : List TrailNode) (a : TrailNode),
      (a.id :: rest.map (fun n => n.id)).Nodup →
      ∀ e ∈ (chainLine dist a rest).2,
        (∃ na ∈ (chainLine dist a rest).1,
          na.id = e.fromId ∧ adjGet na.adj e.toId = some e.weight) ∧
        (∃ nb ∈ (chainLine dist a rest).1,
          nb.id = e.toId ∧ adjGet nb.adj e.fromId = some e.weight) := by
  intro rest
  induction rest with
  | nil => intro a _ e he; simp [chainLine] at he
  | cons b tl ih =>
    intro a hnd e he
    rcases h : chainLine dist { b with adj := adjSet b.adj a.id (dist a.latlng b.latlng) } tl
      with ⟨ns, es⟩
    have hres1 : (chainLine dist a (b :: tl)).1 =
        { a with adj := adjSet a.adj b.id (dist a.latlng b.latlng) } :: ns := by
      simp [chainLine, h]
    have hres2 : (chainLine dist a (b :: tl)).2 =
        (⟨a.id, b.id, dist a.latlng b.latlng⟩ : TrailEdge) :: es := by
      simp [chainLine, h]
    rw [hres2] at he
    rw [hres1]
    have hanotin : a.id ∉ (b.id :: tl.map (fun n => n.id)) := by
      have hx := hnd
      rw [List.nodup_cons] at hx
      simpa using hx.1
    rcases List.mem_cons.mp he with rfl | he'
    · constructor
      · exact ⟨_, List.mem_cons_self _ _, rfl, adjGet_adjSet_self _ _ _⟩
      · obtain ⟨b'', tl'', hb1, hb2, hb3⟩ :=
          chainLine_head dist tl { b with adj := adjSet b.adj a.id (dist a.latlng b.latlng) }
        rw [h] at hb1
        have hb1' : ns = b'' :: tl'' := hb1
        refine ⟨b'', ?_, ?_, ?_⟩
        · rw [hb1']
          exact List.mem_cons_of_mem _ (List.mem_cons_self _ _)
        · simpa using hb2
        · have hnotin : a.id ∉ tl.map (fun n => n.id) := fun hmem =>
            hanotin (List.mem_cons_of_mem _ hmem)
          rw [hb3 a.id hnotin]
          exact adjGet_adjSet_self _ _ _
    · have hnd' : ((({ b with adj := adjSet b.adj a.id (dist a.latlng b.latlng) } :
          TrailNode)).id :: tl.map (fun n => n.id)).Nodup := by
        have hx := hnd
        rw [List.nodup_cons] at hx
        simpa using hx.2
      have hih := ih { b with adj := adjSet b.adj a.id (dist a.latlng b.latlng) } hnd' e
      rw [h] at hih
      obtain ⟨⟨na, hna1, hna2, hna3⟩, ⟨nb, hnb1, hnb2, hnb3⟩⟩ := hih he'
      exact ⟨⟨na, List.mem_cons_of_mem _ hna1, hna2, hna3⟩,
        ⟨nb, List.mem_cons_of_mem _ hnb1, hnb2, hnb3⟩⟩

/-- With pairwise-distinct node ids, `Map.get` finds exactly the member
node bearing the id. -/
lemma find?_node_eq : ∀ (ns : List TrailNode),
    (ns.map (fun x => x.id)).Nodup →
    ∀ na ∈ ns, ns.find? (fun x => x.id = na.id) = some na := by
  intro ns
  induction ns with
  | nil => intro _ na hmem; cases hmem
  | cons c tl ih =>
    intro hnd na hmem
    have hnd2 : (c.id :: tl.map (fun x => x.id)).Nodup := by
      simpa using hnd
    have hnd' := List.nodup_cons.mp hnd2
    by_cases hc : c.id = na.id
    · have hceq : c = na := by
        rcases List.mem_cons.mp hmem with rfl | hmem'
        · rfl
        · exfalso
          have hin : na.id ∈ tl.map (fun x => x.id) :=
            List.mem_map_of_mem _ hmem'
          rw [← hc] at hin
          exact hnd'.1 hin
      subst hceq
      exact List.find?_cons_of_pos _ (by simp)
    · have hmem' : na ∈ tl := by
        rcases List.mem_cons.mp hmem with rfl | hmem'
        · exact absurd rfl hc
        · exact hmem'
      rw [List.find?_cons_of_neg _ (by simp [hc])]
      exact ih hnd'.2 na hmem'

/-- Ids of the nodes created for one line: the counter values
`n, n+1, …`. -/
lemma enumFrom_nodes_ids (n : ℕ) : ∀ (coords : List (ℚ × ℚ)) (i : ℕ),
    (((coords.enumFrom i).map
        (fun ic => ({ id := n + ic.1, latlng := (ic.2.2, ic.2.1),
                      adj := [] } : TrailNode))).map (fun x => x.id)) =
      List.range' (n + i) coords.length := by
  intro coords
  induction coords with
  | nil => intro i; simp [List.enumFrom]
  | cons c ctl ih =>
    intro i
    have hih := ih (i + 1)
    simp only [List.enumFrom, List.map_cons, List.length_cons, hih,
      List.range'_succ]
    rw [← Nat.add_assoc]

/-- One `forEach` step on a `LineString` feature: node and edge counts grow
by the coordinate count and the consecutive-pair count, the id counter
advances by the coordinate count, and the id-bound, id-uniqueness and
edge-mirroring invariants are preserved. -/
lemma buildStep_spec (dist : ℚ × ℚ → ℚ × ℚ → ℚ) (f : Feature)
    (g : TrailGraph) (n : ℕ) (hf : f.geomType = "LineString")
    (hlt : ∀ x ∈ g.nodes, x.id < n)
    (hnd : (g.nodes.map (fun x => x.id)).Nodup)
    (hm : edgesMirrored g) :
    (buildStep dist (g, n) f).1.nodes.length
        = g.nodes.length + f.coordinates.length ∧
    (buildStep dist (g, n) f).1.edges.length
        = g.edges.length + (f.coordinates.length - 1) ∧
    (buildStep dist (g, n) f).2 = n + f.coordinates.length ∧
    (∀ x ∈ (buildStep dist (g, n) f).1.nodes,
        x.id < (buildStep dist (g, n) f).2) ∧
    ((buildStep dist (g, n) f).1.nodes.map (fun x => x.id)).Nodup ∧
    edgesMirrored (buildStep dist (g, n) f).1 := by
  rcases f with ⟨gt, coords⟩
  simp only [Feature.geomType] at hf
  subst hf
  cases coords with
  | nil =>
    have hstep : buildStep dist (g, n) ⟨"LineString", []⟩ = (g, n) := by
      simp [buildStep, List.enum, List.enumFrom]
    rw [hstep]
    refine ⟨by simp, by simp, by simp, ?_, hnd, hm⟩
    intro x hx
    simpa using hlt x hx
  | cons c0 ctl =>
    rcases h : chainLine dist
        ({ id := n, latlng := (c0.2, c0.1), adj := [] } : TrailNode)
        ((ctl.enumFrom 1).map
          (fun ic => ({ id := n + ic.1, latlng := (ic.2.2, ic.2.1),
                        adj := [] } : TrailNode)))
      with ⟨ns, es⟩
    have hstep : buildStep dist (g, n) ⟨"LineString", c0 :: ctl⟩ =
        ({ nodes := g.nodes ++ ns, edges := g.edges ++ es },
          n + (ctl.length + 1)) := by
      simp [buildStep, List.enum, List.enumFrom, h]
    have hids : (({ id := n, latlng := (c0.2, c0.1), adj := [] } :
          TrailNode).id ::
          ((ctl.enumFrom 1).map
            (fun ic => ({ id := n + ic.1, latlng := (ic.2.2, ic.2.1),
                          adj := [] } : TrailNode))).map (fun x => x.id)) =
        List.range' n (ctl.length + 1) := by
      have hh := enumFrom_nodes_ids n (c0 :: ctl) 0
      simpa [List.enumFrom] using hh
    have hnsids : ns.map (fun x => x.id) = List.range' n (ctl.length + 1) := by
      have hh := chainLine_fst_ids dist
        ((ctl.enumFrom 1).map
          (fun ic => ({ id := n + ic.1, latlng := (ic.2.2, ic.2.1),
                        adj := [] } : TrailNode)))
        ({ id := n, latlng := (c0.2, c0.1), adj := [] } : TrailNode)
      rw [h] at hh
      exact hh.trans hids
    have hnslen : ns.length = ctl.length + 1 := by
      have hh := congrArg List.length hnsids
      simpa using hh
    have heslen : es.length = ctl.length := by
      have hh := chainLine_snd_length dist
        ((ctl.enumFrom 1).map
          (fun ic => ({ id := n + ic.1, latlng := (ic.2.2, ic.2.1),
                        adj := [] } : TrailNode)))
        ({ id := n, latlng := (c0.2, c0.1), adj := [] } : TrailNode)
      rw [h] at hh
      simpa using hh
    have hlinodup : (({ id := n, latlng := (c0.2, c0.1), adj := [] } :
          TrailNode).id ::
          ((ctl.enumFrom 1).map
            (fun ic => ({ id := n + ic.1, latlng := (ic.2.2, ic.2.1),
                          adj := [] } : TrailNode))).map (fun x => x.id)).Nodup := by
      rw [hids]
      exact List.nodup_range' ..
    have hmline := chainLine_mirror dist
      ((ctl.enumFrom 1).map
        (fun ic => ({ id := n + ic.1, latlng := (ic.2.2, ic.2.1),
                      adj := [] } : TrailNode)))
      ({ id := n, latlng := (c0.2, c0.1), adj := [] } : TrailNode)
      hlinodup
    rw [h] at hmline
    rw [hstep]
    have hnsnodup : (ns.map (fun x => x.id)).Nodup := by
      rw [hnsids]
      exact List.nodup_range' ..
    have hnsmem : ∀ x ∈ ns, n ≤ x.id ∧ x.id < n + (ctl.length + 1) := by
      intro x hx
      have hxid : x.id ∈ ns.map (fun y => y.id) := List.mem_map_of_mem _ hx
      rw [hnsids, List.mem_range'] at hxid
      omega
    refine ⟨?_, ?_, by simp, ?_, ?_, ?_⟩
    · simp [hnslen]
    · simp [heslen]
    · intro x hx
      rcases List.mem_append.mp hx with hx | hx
      · have := hlt x hx
        simp only []
        omega
      · have := hnsmem x hx
        simp only []
        omega
    · simp only [List.map_append]
      refine List.Nodup.append hnd hnsnodup ?_
      intro a ha hb
      obtain ⟨x, hx, rfl⟩ := List.mem_map.mp ha
      obtain ⟨y, hy, hxy⟩ := List.mem_map.mp hb
      have h1 := hlt x hx
      have h2 := (hnsmem y hy).1
      omega
    · intro e he
      rcases List.mem_append.mp he with he | he
      · obtain ⟨⟨na, hna1, hna2⟩, ⟨nb, hnb1, hnb2⟩⟩ := hm e he
        constructor
        · refine ⟨na, ?_, hna2⟩
          simp only [getNode] at hna1 ⊢
          rw [List.find?_append, hna1]
          rfl
        · refine ⟨nb, ?_, hnb2⟩
          simp only [getNode] at hnb1 ⊢
          rw [List.find?_append, hnb1]
          rfl
      · obtain ⟨⟨na, hna1, hna2, hna3⟩, ⟨nb, hnb1, hnb2, hnb3⟩⟩ := hmline e he
        have hfind : ∀ (x : TrailNode), x ∈ ns →
            (g.nodes ++ ns).find? (fun y => y.id = x.id) = some x := by
          intro x hx
          rw [List.find?_append]
          have hnone : g.nodes.find? (fun y => y.id = x.id) = none := by
            rw [List.find?_eq_none]
            intro y hy
            have h1 := hlt y hy
            have h2 := (hnsmem x hx).1
            simp only [decide_eq_true_eq]
            omega
          rw [hnone]
          simpa using find?_node_eq ns hnsnodup x hx
        constructor
        · refine ⟨na, ?_, hna3⟩
          simp only [getNode]
          rw [← hna2]
          exact hfind na hna1
        · refine ⟨nb, ?_, hnb3⟩
          simp only [getNode]
          rw [← hnb2]
          exact hfind nb hnb1

/-- Folding the builder step over any list of `LineString` features adds
`Σ nᵢ` nodes and `Σ (nᵢ − 1)` edges and preserves the graph invariants. -/
lemma buildFold_spec (dist : ℚ × ℚ → ℚ × ℚ → ℚ) :
    ∀ (features : List Feature) (g : TrailGraph) (n : ℕ),
      (∀ f ∈ features, f.geomType = "LineString") →
      (∀ x ∈ g.nodes, x.id < n) →
      ((g.nodes.map (fun x => x.id)).Nodup) →
      edgesMirrored g →
      ((features.foldl (buildStep dist) (g, n)).1.nodes.length
          = g.nodes.length + (features.map (fun f => f.coordinates.length)).sum) ∧
      ((features.foldl (buildStep dist) (g, n)).1.edges.length
          = g.edges.length +
            (features.map (fun f => f.coordinates.length - 1)).sum) ∧
      (∀ x ∈ (features.foldl (buildStep dist) (g, n)).1.nodes,
          x.id < (features.foldl (buildStep dist) (g, n)).2) ∧
      (((features.foldl (buildStep dist) (g, n)).1.nodes.map
          (fun x => x.id)).Nodup) ∧
      edgesMirrored (features.foldl (buildStep dist) (g, n)).1 := by
  intro features
  induction features with
  | nil => intro g n _ hlt hnd hm; exact ⟨by simp, by simp, hlt, hnd, hm⟩
  | cons f ftl ih =>
    intro g n hls hlt hnd hm
    have hspec := buildStep_spec dist f g n (hls f (List.mem_cons_self _ _))
      hlt hnd hm
    rcases hstep : buildStep dist (g, n) f with ⟨g', n'⟩
    rw [hstep] at hspec
    obtain ⟨h1, h2, _, h4, h5, h6⟩ := hspec
    have hih := ih g' n' (fun x hx => hls x (List.mem_cons_of_mem _ hx)) h4 h5 h6
    have hfold : (f :: ftl).foldl (buildStep dist) (g, n) =
        ftl.foldl (buildStep dist) (g', n') := by
      simp [List.foldl_cons, hstep]
    rw [hfold]
    obtain ⟨i1, i2, i3, i4, i5⟩ := hih
    refine ⟨?_, ?_, i3, i4, i5⟩
    · rw [i1, h1]
      simp only [List.map_cons, List.sum_cons]
      omega
    · rw [i2, h2]
      simp only [List.map_cons, List.sum_cons]
      omega

/-- C6: on `LineString` inputs with `nᵢ ≥ 2` coordinates each,
`buildTrailGraph` produces exactly `Σ nᵢ` nodes and `Σ (nᵢ − 1)` edges, and
every edge record's endpoints exist in the node map, each listing the other
in its adjacency with the edge's weight (`edgesMirrored`). -/
theorem buildTrailGraph_counts_symm (dist : ℚ × ℚ → ℚ × ℚ → ℚ)
    (features : List Feature)
    (h : ∀ f ∈ features, f.geomType = "LineString" ∧ 2 ≤ f.coordinates.length) :
    (buildTrailGraph dist features).nodes.length
        = (features.map (fun f => f.coordinates.length)).sum ∧
    (buildTrailGraph dist features).edges.length
        = (features.map (fun f => f.coordinates.length - 1)).sum ∧
    edgesMirrored (buildTrailGraph dist features) := by
  have hfold := buildFold_spec dist features ⟨[], []⟩ 0
    (fun f hf => (h f hf).1)
    (fun x hx => absurd hx (List.not_mem_nil x))
    (by simp)
    (fun e he => absurd he (List.not_mem_nil e))
  unfold buildTrailGraph
  exact ⟨by simpa using hfold.1, by simpa using hfold.2.1, hfold.2.2.2.2⟩

/-- C6 witness: two concrete lines with 2 and 3 coordinates give 5 nodes
and 3 mirrored edges. -/
theorem buildTrailGraph_counts_symm_witness :
    (∀ f ∈ [(⟨"LineString", [(0, 0), (1, 0)]⟩ : Feature),
        ⟨"LineString", [(5, 5), (6, 5), (7, 5)]⟩],
      f.geomType = "LineString" ∧ 2 ≤ f.coordinates.length) ∧
    ((buildTrailGraph (fun _ _ => 3)
        [(⟨"LineString", [(0, 0), (1, 0)]⟩ : Feature),
         ⟨"LineString", [(5, 5), (6, 5), (7, 5)]⟩]).nodes.length
      = ([(⟨"LineString", [(0, 0), (1, 0)]⟩ : Feature),
          ⟨"LineString", [(5, 5), (6, 5), (7, 5)]⟩].map
            (fun f => f.coordinates.length)).sum ∧
    (buildTrailGraph (fun _ _ => 3)
        [(⟨"LineString", [(0, 0), (1, 0)]⟩ : Feature),
         ⟨"LineString", [(5, 5), (6, 5), (7, 5)]⟩]).edges.length
      = ([(⟨"LineString", [(0, 0), (1, 0)]⟩ : Feature),
          ⟨"LineString", [(5, 5), (6, 5), (7, 5)]⟩].map
            (fun f => f.coordinates.length - 1)).sum ∧
    edgesMirrored (buildTrailGraph (fun _ _ => 3)
        [(⟨"LineString", [(0, 0), (1, 0)]⟩ : Feature),
         ⟨"LineString", [(5, 5), (6, 5), (7, 5)]⟩])) :=
  ⟨by with_unfolding_all decide,
    buildTrailGraph_counts_symm (fun _ _ => 3) _ (by with_unfolding_all decide)⟩

/-! ### C10 — the two great-circle implementations agree -/

/-- C10: at real-number semantics the map module's `haversine` and the
scorer's `calculateDistance` return equal values on every pair of
corresponding points: both use Earth radius 6 371 000 m and the same
haversine formula (they differ only in argument convention, squaring
style, angle-difference order and final scaling order, all of which are
algebraically neutral). -/
theorem haversine_eq_calculateDistance (lat1 lng1 lat2 lng2 : ℝ) :
    haversine (lat1, lng1) (lat2, lng2) =
      calculateDistance ⟨lat1, lng1⟩ ⟨lat2, lng2⟩ := by
  simp only [haversine, calculateDistance]
  have h1 : lat2 * Real.pi / 180 - lat1 * Real.pi / 180
      = (lat2 - lat1) * Real.pi / 180 := by ring
  have h2 : lng2 * Real.pi / 180 - lng1 * Real.pi / 180
      = (lng2 - lng1) * Real.pi / 180 := by ring
  rw [h1, h2]
  have h3 : Real.sin ((lat2 - lat1) * Real.pi / 180 / 2) ^ 2 +
      Real.cos (lat1 * Real.pi / 180) * Real.cos (lat2 * Real.pi / 180) *
        Real.sin ((lng2 - lng1) * Real.pi / 180 / 2) ^ 2
      = Real.sin ((lat2 - lat1) * Real.pi / 180 / 2) *
          Real.sin ((lat2 - lat1) * Real.pi / 180 / 2) +
        Real.cos (lat1 * Real.pi / 180) * Real.cos (lat2 * Real.pi / 180) *
          Real.sin ((lng2 - lng1) * Real.pi / 180 / 2) *
          Real.sin ((lng2 - lng1) * Real.pi / 180 / 2) := by ring
  rw [h3]
  ring

/-! ### C5 — total score bounds and composition -/

/-- A supplied-or-defaulted fraction stays in `[0,1]`. -/
lemma jsOrQ_unit {o : Option ℚ} {d : ℚ} (ho : inUnit o = true)
    (h0 : 0 ≤ d) (h1 : d ≤ 1) : 0 ≤ jsOrQ o d ∧ jsOrQ o d ≤ 1 := by
  cases o with
  | none => exact ⟨h0, h1⟩
  | some x =>
    simp only [inUnit, Bool.and_eq_true, decide_eq_true_eq] at ho
    simp only [jsOrQ]
    split_ifs
    · exact ⟨h0, h1⟩
    · exact ho

/-- The fourteen `inUnit` facts packed into `validRoute`. -/
lemma validRoute_parts {r : Route} (h : validRoute r = true) :
    inUnit r.shelterCoverage = true ∧ inUnit r.shadeCoverage = true ∧
    inUnit r.exposureLevel = true ∧ inUnit r.vegetationCoverage = true ∧
    inUnit r.crowdDensity = true ∧ inUnit r.wildlifeHistory = true ∧
    inUnit r.surfaceQuality = true ∧ inUnit r.gradient = true ∧
    inUnit r.safety = true ∧ inUnit r.scenery = true ∧
    inUnit r.wildlifeData.birds = true ∧
    inUnit r.wildlifeData.squirrels = true ∧
    inUnit r.wildlifeData.ducks = true ∧
    inUnit r.wildlifeData.swans = true := by
  simp only [validRoute, Bool.and_eq_true] at h
  tauto

/-- Multiplying a `[0, hi]`-bounded score by a `[0,1]` factor keeps it in
`[0, hi]`. -/
lemma stage_mul_bound {z f hi : ℚ} (hz : 0 ≤ z ∧ z ≤ hi) (hf0 : 0 ≤ f)
    (hf1 : f ≤ 1) : 0 ≤ z * f ∧ z * f ≤ hi :=
  ⟨mul_nonneg hz.1 hf0, le_trans (mul_le_of_le_one_right hz.1 hf1) hz.2⟩

/-- Rain stage of the weather score: in `[0, 0.9]`. -/
lemma weatherV_bounds (sh p : ℚ) (hsh : 0 ≤ sh ∧ sh ≤ 1) :
    0 ≤ (if 0 < p then
          (if 5 < p then sh * 0.8 * 0.6
           else if 2 < p then sh * 0.8 * 0.8 else sh * 0.8)
         else (0.5 : ℚ)) ∧
    (if 0 < p then
      (if 5 < p then sh * 0.8 * 0.6
       else if 2 < p then sh * 0.8 * 0.8 else sh * 0.8)
     else (0.5 : ℚ)) ≤ 0.9 := by
  split_ifs <;> constructor <;> linarith [hsh.1, hsh.2]

/-- Rain-then-heat stages of the weather score: in `[0, 0.9]`. -/
lemma weatherW_bounds (sh shd p t : ℚ) (sn : Bool)
    (hsh : 0 ≤ sh ∧ sh ≤ 1) (hshd : 0 ≤ shd ∧ shd ≤ 1) :
    0 ≤ (if sn = true ∧ 25 < t then
          (if 30 < t then shd * 0.9 * 0.7 else shd * 0.9)
         else
          (if 0 < p then
            (if 5 < p then sh * 0.8 * 0.6
             else if 2 < p then sh * 0.8 * 0.8 else sh * 0.8)
           else (0.5 : ℚ))) ∧
    (if sn = true ∧ 25 < t then
      (if 30 < t then shd * 0.9 * 0.7 else shd * 0.9)
     else
      (if 0 < p then
        (if 5 < p then sh * 0.8 * 0.6
         else if 2 < p then sh * 0.8 * 0.8 else sh * 0.8)
       else (0.5 : ℚ))) ≤ 0.9 := by
  by_cases hc : sn = true ∧ 25 < t
  · rw [if_pos hc]
    split_ifs <;> constructor <;> linarith [hshd.1, hshd.2]
  · rw [if_neg hc]
    exact weatherV_bounds sh p hsh

/-- Mild-temperature stage of the weather score: in `[0, 0.9]`. -/
lemma weatherZ_bounds (sh shd p t : ℚ) (sn : Bool)
    (hsh : 0 ≤ sh ∧ sh ≤ 1) (hshd : 0 ≤ shd ∧ shd ≤ 1) :
    0 ≤ (if 15 ≤ t ∧ t ≤ 25 ∧ p = 0 then
          max (if sn = true ∧ 25 < t then
                (if 30 < t then shd * 0.9 * 0.7 else shd * 0.9)
               else
                (if 0 < p then
                  (if 5 < p then sh * 0.8 * 0.6
                   else if 2 < p then sh * 0.8 * 0.8 else sh * 0.8)
                 else (0.5 : ℚ))) 0.8
         else
          (if sn = true ∧ 25 < t then
            (if 30 < t then shd * 0.9 * 0.7 else shd * 0.9)
           else
            (if 0 < p then
              (if 5 < p then sh * 0.8 * 0.6
               else if 2 < p then sh * 0.8 * 0.8 else sh * 0.8)
             else (0.5 : ℚ)))) ∧
    (if 15 ≤ t ∧ t ≤ 25 ∧ p = 0 then
      max (if sn = true ∧ 25 < t then
            (if 30 < t then shd * 0.9 * 0.7 else shd * 0.9)
           else
            (if 0 < p then
              (if 5 < p then sh * 0.8 * 0.6
               else if 2 < p then sh * 0.8 * 0.8 else sh * 0.8)
             else (0.5 : ℚ))) 0.8
     else
      (if sn = true ∧ 25 < t then
        (if 30 < t then shd * 0.9 * 0.7 else shd * 0.9)
       else
        (if 0 < p then
          (if 5 < p then sh * 0.8 * 0.6
           else if 2 < p then sh * 0.8 * 0.8 else sh * 0.8)
         else (0.5 : ℚ)))) ≤ 0.9 := by
  have hw := weatherW_bounds sh shd p t sn hsh hshd
  by_cases hc : 15 ≤ t ∧ t ≤ 25 ∧ p = 0
  · rw [if_pos hc]
    constructor
    · exact le_trans (by norm_num) (le_max_right _ _)
    · exact max_le hw.2 (by norm_num)
  · rw [if_neg hc]
    exact hw

/-- Full pre-clamp weather chain (wind and humidity stages included): in
`[0, 0.9]`. -/
lemma weatherX_bounds (sh shd ex p t ws hum : ℚ) (sn : Bool)
    (hsh : 0 ≤ sh ∧ sh ≤ 1) (hshd : 0 ≤ shd ∧ shd ≤ 1)
    (hex : 0 ≤ ex ∧ ex ≤ 1) :
    0 ≤ (if 80 < hum then
          (if 15 < ws then
            (if 15 ≤ t ∧ t ≤ 25 ∧ p = 0 then
              max (if sn = true ∧ 25 < t then
                    (if 30 < t then shd * 0.9 * 0.7 else shd * 0.9)
                   else
                    (if 0 < p then
                      (if 5 < p then sh * 0.8 * 0.6
                       else if 2 < p then sh * 0.8 * 0.8 else sh * 0.8)
                     else (0.5 : ℚ))) 0.8
             else
              (if sn = true ∧ 25 < t then
                (if 30 < t then shd * 0.9 * 0.7 else shd * 0.9)
               else
                (if 0 < p then
                  (if 5 < p then sh * 0.8 * 0.6
                   else if 2 < p then sh * 0.8 * 0.8 else sh * 0.8)
                 else (0.5 : ℚ)))) * (1 - ex * 0.3)
           else
            (if 15 ≤ t ∧ t ≤ 25 ∧ p = 0 then
              max (if sn = true ∧ 25 < t then
                    (if 30 < t then shd * 0.9 * 0.7 else shd * 0.9)
                   else
                    (if 0 < p then
                      (if 5 < p then sh * 0.8 * 0.6
                       else if 2 < p then sh * 0.8 * 0.8 else sh * 0.8)
                     else (0.5 : ℚ))) 0.8
             else
              (if sn = true ∧ 25 < t then
                (if 30 < t then shd * 0.9 * 0.7 else shd * 0.9)
               else
                (if 0 < p then
                  (if 5 < p then sh * 0.8 * 0.6
                   else if 2 < p then sh * 0.8 * 0.8 else sh * 0.8)
                 else (0.5 : ℚ))))) * 0.9
         else
          (if 15 < ws then
            (if 15 ≤ t ∧ t ≤ 25 ∧ p = 0 then
              max (if sn = true ∧ 25 < t then
                    (if 30 < t then shd * 0.9 * 0.7 else shd * 0.9)
                   else
                    (if 0 < p then
                      (if 5 < p then sh * 0.8 * 0.6
                       else if 2 < p then sh * 0.8 * 0.8 else sh * 0.8)
                     else (0.5 : ℚ))) 0.8
             else
              (if sn = true ∧ 25 < t then
                (if 30 < t then shd * 0.9 * 0.7 else shd * 0.9)
               else
                (if 0 < p then
                  (if 5 < p then sh * 0.8 * 0.6
                   else if 2 < p then sh * 0.8 * 0.8 else sh * 0.8)
                 else (0.5 : ℚ)))) * (1 - ex * 0.3)
           else
            (if 15 ≤ t ∧ t ≤ 25 ∧ p = 0 then
              max (if sn = true ∧ 25 < t then
                    (if 30 < t then shd * 0.9 * 0.7 else shd * 0.9)
                   else
                    (if 0 < p then
                      (if 5 < p then sh * 0.8 * 0.6
                       else if 2 < p then sh * 0.8 * 0.8 else sh * 0.8)
                     else (0.5 : ℚ))) 0.8
             else
              (if sn = true ∧ 25 < t then
                (if 30 < t then shd * 0.9 * 0.7 else shd * 0.9)
               else
                (if 0 < p then
                  (if 5 < p then sh * 0.8 * 0.6
                   else if 2 < p then sh * 0.8 * 0.8 else sh * 0.8)
                 else (0.5 : ℚ)))))) ∧
    (if 80 < hum then
      (if 15 < ws then
        (if 15 ≤ t ∧ t ≤ 25 ∧ p = 0 then
          max (if sn = true ∧ 25 < t then
                (if 30 < t then shd * 0.9 * 0.7 else shd * 0.9)
               else
                (if 0 < p then
                  (if 5 < p then sh * 0.8 * 0.6
                   else if 2 < p then sh * 0.8 * 0.8 else sh * 0.8)
                 else (0.5 : ℚ))) 0.8
         else
          (if sn = true ∧ 25 < t then
            (if 30 < t then shd * 0.9 * 0.7 else shd * 0.9)
           else
            (if 0 < p then
              (if 5 < p then sh * 0.8 * 0.6
               else if 2 < p then sh * 0.8 * 0.8 else sh * 0.8)
             else (0.5 : ℚ)))) * (1 - ex * 0.3)
       else
        (if 15 ≤ t ∧ t ≤ 25 ∧ p = 0 then
          max (if sn = true ∧ 25 < t then
                (if 30 < t then shd * 0.9 * 0.7 else shd * 0.9)
               else
                (if 0 < p then
                  (if 5 < p then sh * 0.8 * 0.6
                   else if 2 < p then sh * 0.8 * 0.8 else sh * 0.8)
                 else (0.5 : ℚ))) 0.8
         else
          (if sn = true ∧ 25 < t then
            (if 30 < t then shd * 0.9 * 0.7 else shd * 0.9)
           else
            (if 0 < p then
              (if 5 < p then sh * 0.8 * 0.6
               else if 2 < p then sh * 0.8 * 0.8 else sh * 0.8)
             else (0.5 : ℚ))))) * 0.9
     else
      (if 15 < ws then
        (if 15 ≤ t ∧ t ≤ 25 ∧ p = 0 then
          max (if sn = true ∧ 25 < t then
                (if 30 < t then shd * 0.9 * 0.7 else shd * 0.9)
               else
                (if 0 < p then
                  (if 5 < p then sh * 0.8 * 0.6
                   else if 2 < p then sh * 0.8 * 0.8 else sh * 0.8)
                 else (0.5 : ℚ))) 0.8
         else
          (if sn = true ∧ 25 < t then
            (if 30 < t then shd * 0.9 * 0.7 else shd * 0.9)
           else
            (if 0 < p then
              (if 5 < p then sh * 0.8 * 0.6
               else if 2 < p then sh * 0.8 * 0.8 else sh * 0.8)
             else (0.5 : ℚ)))) * (1 - ex * 0.3)
       else
        (if 15 ≤ t ∧ t ≤ 25 ∧ p = 0 then
          max (if sn = true ∧ 25 < t then
                (if 30 < t then shd * 0.9 * 0.7 else shd * 0.9)
               else
                (if 0 < p then
                  (if 5 < p then sh * 0.8 * 0.6
                   else if 2 < p then sh * 0.8 * 0.8 else sh * 0.8)
                 else (0.5 : ℚ))) 0.8
         else
          (if sn = true ∧ 25 < t then
            (if 30 < t then shd * 0.9 * 0.7 else shd * 0.9)
           else
            (if 0 < p then
              (if 5 < p then sh * 0.8 * 0.6
               else if 2 < p then sh * 0.8 * 0.8 else sh * 0.8)
             else (0.5 : ℚ)))))) ≤ 0.9 := by
  have hz := weatherZ_bounds sh shd p t sn hsh hshd
  have hy : 0 ≤ (if 15 < ws then
        (if 15 ≤ t ∧ t ≤ 25 ∧ p = 0 then
          max (if sn = true ∧ 25 < t then
                (if 30 < t then shd * 0.9 * 0.7 else shd * 0.9)
               else
                (if 0 < p then
                  (if 5 < p then sh * 0.8 * 0.6
                   else if 2 < p then sh * 0.8 * 0.8 else sh * 0.8)
                 else (0.5 : ℚ))) 0.8
         else
          (if sn = true ∧ 25 < t then
            (if 30 < t then shd * 0.9 * 0.7 else shd * 0.9)
           else
            (if 0 < p then
              (if 5 < p then sh * 0.8 * 0.6
               else if 2 < p then sh * 0.8 * 0.8 else sh * 0.8)
             else (0.5 : ℚ)))) * (1 - ex * 0.3)
       else
        (if 15 ≤ t ∧ t ≤ 25 ∧ p = 0 then
          max (if sn = true ∧ 25 < t then
                (if 30 < t then shd * 0.9 * 0.7 else shd * 0.9)
               else
                (if 0 < p then
                  (if 5 < p then sh * 0.8 * 0.6
                   else if 2 < p then sh * 0.8 * 0.8 else sh * 0.8)
                 else (0.5 : ℚ))) 0.8
         else
          (if sn = true ∧ 25 < t then
            (if 30 < t then shd * 0.9 * 0.7 else shd * 0.9)
           else
            (if 0 < p then
              (if 5 < p then sh * 0.8 * 0.6
               else if 2 < p then sh * 0.8 * 0.8 else sh * 0.8)
             else (0.5 : ℚ))))) ∧
      (if 15 < ws then
        (if 15 ≤ t ∧ t ≤ 25 ∧ p = 0 then
          max (if sn = true ∧ 25 < t then
                (if 30 < t then shd * 0.9 * 0.7 else shd * 0.9)
               else
                (if 0 < p then
                  (if 5 < p then sh * 0.8 * 0.6
                   else if 2 < p then sh * 0.8 * 0.8 else sh * 0.8)
                 else (0.5 : ℚ))) 0.8
         else
          (if sn = true ∧ 25 < t then
            (if 30 < t then shd * 0.9 * 0.7 else shd * 0.9)
           else
            (if 0 < p then
              (if 5 < p then sh * 0.8 * 0.6
               else if 2 < p then sh * 0.8 * 0.8 else sh * 0.8)
             else (0.5 : ℚ)))) * (1 - ex * 0.3)
       else
        (if 15 ≤ t ∧ t ≤ 25 ∧ p = 0 then
          max (if sn = true ∧ 25 < t then
                (if 30 < t then shd * 0.9 * 0.7 else shd * 0.9)
               else
                (if 0 < p then
                  (if 5 < p then sh * 0.8 * 0.6
                   else if 2 < p then sh * 0.8 * 0.8 else sh * 0.8)
                 else (0.5 : ℚ))) 0.8
         else
          (if sn = true ∧ 25 < t then
            (if 30 < t then shd * 0.9 * 0.7 else shd * 0.9)
           else
            (if 0 < p then
              (if 5 < p then sh * 0.8 * 0.6
               else if 2 < p then sh * 0.8 * 0.8 else sh * 0.8)
             else (0.5 : ℚ))))) ≤ 0.9 := by
    by_cases hc : 15 < ws
    · rw [if_pos hc]
      exact stage_mul_bound hz (by linarith [hex.2]) (by linarith [hex.1])
    · rw [if_neg hc]
      exact hz
  by_cases hc : 80 < hum
  · rw [if_pos hc]
    exact stage_mul_bound hy (by norm_num) (by norm_num)
  · rw [if_neg hc]
    exact hy

/-- The weather subscore of a valid route lies in `[0, 0.9]` (the sun-heat
cap `0.9` is the largest value any branch can produce). -/
lemma calculateWeatherScore_bounds (r : Route) (w : Weather)
    (h : validRoute r = true) :
    0 ≤ calculateWeatherScore r w ∧ calculateWeatherScore r w ≤ 0.9 := by
  obtain ⟨hsh, hshd, hex, _⟩ := validRoute_parts h
  have hsh' := jsOrQ_unit hsh (by norm_num : (0:ℚ) ≤ 0.3) (by norm_num)
  have hshd' := jsOrQ_unit hshd (by norm_num : (0:ℚ) ≤ 0.4) (by norm_num)
  have hex' := jsOrQ_unit hex (by norm_num : (0:ℚ) ≤ 0.5) (by norm_num)
  have hx := weatherX_bounds (jsOrQ r.shelterCoverage 0.3)
    (jsOrQ r.shadeCoverage 0.4) (jsOrQ r.exposureLevel 0.5)
    (w.precipitation.getD 0) (w.temperature.getD 15) (w.windSpeed.getD 5)
    (w.humidity.getD 60) (w.sunny.getD true) hsh' hshd' hex'
  constructor
  · exact le_max_left 0 _
  · exact max_le (by norm_num) (le_trans (min_le_right _ _) hx.2)

/-- Every per-species probability default is nonnegative for a valid
wildlife record. -/
lemma wildlifeDataGet_nonneg {wd : WildlifeData}
    (hb : inUnit wd.birds = true) (hs : inUnit wd.squirrels = true)
    (hd : inUnit wd.ducks = true) (hw : inUnit wd.swans = true) :
    ∀ sp, 0 ≤ jsOrQ (wildlifeDataGet wd sp) 0.2 := by
  intro sp
  unfold wildlifeDataGet
  split_ifs
  · exact (jsOrQ_unit hb (by norm_num) (by norm_num)).1
  · exact (jsOrQ_unit hs (by norm_num) (by norm_num)).1
  · exact (jsOrQ_unit hd (by norm_num) (by norm_num)).1
  · exact (jsOrQ_unit hw (by norm_num) (by norm_num)).1
  · norm_num [jsOrQ]

/-- The hour-based accumulation never drops below its start value. -/
lemma time_foldl_nonneg (hour : ℕ) (wd : WildlifeData)
    (hb : ∀ sp, 0 ≤ jsOrQ (wildlifeDataGet wd sp) 0.2) :
    ∀ (l : List (String × List ℕ)) (c : ℚ), 0 ≤ c →
      0 ≤ l.foldl
        (fun acc sp =>
          if hour ∈ sp.2 then acc + jsOrQ (wildlifeDataGet wd sp.1) 0.2
          else acc) c := by
  intro l
  induction l with
  | nil => intro c hc; simpa using hc
  | cons a t ih =>
    intro c hc
    simp only [List.foldl_cons]
    refine ih _ ?_
    split_ifs
    · linarith [hb a.1]
    · exact hc

/-- Time factor of the wildlife score: in `[0,1]`. -/
lemma getTimeBasedProbability_bounds (hour : ℕ) (wd : WildlifeData)
    (hb : ∀ sp, 0 ≤ jsOrQ (wildlifeDataGet wd sp) 0.2) :
    0 ≤ getTimeBasedProbability hour wd ∧
      getTimeBasedProbability hour wd ≤ 1 := by
  unfold getTimeBasedProbability
  exact ⟨le_min (by norm_num) (time_foldl_nonneg hour wd hb wildlifePatterns 0 le_rfl),
    min_le_left _ _⟩

/-- Every seasonal multiplier is nonnegative. -/
lemma multTable_nonneg (season sp : String) : 0 ≤ multTable season sp := by
  unfold multTable
  split_ifs <;> norm_num

/-- The seasonal accumulation never drops below its start value. -/
lemma season_foldl_nonneg (season : String) :
    ∀ (l : List String) (c : ℚ), 0 ≤ c →
      0 ≤ l.foldl (fun acc sp => acc + multTable season sp * 0.2) c := by
  intro l
  induction l with
  | nil => intro c hc; simpa using hc
  | cons a t ih =>
    intro c hc
    simp only [List.foldl_cons]
    refine ih _ ?_
    have hm := multTable_nonneg season a
    linarith

/-- Season factor of the wildlife score: in `[0,1]`. -/
lemma getSeasonalProbability_bounds (season : String) (species : List String) :
    0 ≤ getSeasonalProbability season species ∧
      getSeasonalProbability season species ≤ 1 := by
  unfold getSeasonalProbability
  exact ⟨le_min (by norm_num) (season_foldl_nonneg season species 0 le_rfl),
    min_le_left _ _⟩

/-- Location factor of the wildlife score: in `[0,1]` for a valid route. -/
lemma calculateWildlifeLocationScore_bounds (r : Route)
    (hveg : inUnit r.vegetationCoverage = true)
    (hcrowd : inUnit r.crowdDensity = true) :
    0 ≤ calculateWildlifeLocationScore r ∧
      calculateWildlifeLocationScore r ≤ 1 := by
  have hv := jsOrQ_unit hveg (by norm_num : (0:ℚ) ≤ 0.5) (by norm_num)
  have hc := jsOrQ_unit hcrowd (by norm_num : (0:ℚ) ≤ 0.5) (by norm_num)
  unfold calculateWildlifeLocationScore
  constructor
  · refine le_min (by norm_num) ?_
    split_ifs <;> linarith [hv.1, hv.2, hc.1, hc.2]
  · exact min_le_left _ _

/-- The wildlife subscore of a valid route lies in `[0,1]`. -/
lemma calculateWildlifeScore_bounds (r : Route) (hour : ℕ) (season : String)
    (h : validRoute r = true) :
    0 ≤ calculateWildlifeScore r hour season ∧
      calculateWildlifeScore r hour season ≤ 1 := by
  obtain ⟨_, _, _, hveg, hcrowd, hhist, _, _, _, _, hb, hs, hd, hw⟩ :=
    validRoute_parts h
  have ht := getTimeBasedProbability_bounds hour r.wildlifeData
    (wildlifeDataGet_nonneg hb hs hd hw)
  have hsea := getSeasonalProbability_bounds season r.species
  have hhist' := jsOrQ_unit hhist (by norm_num : (0:ℚ) ≤ 0.6) (by norm_num)
  have hcon : 0 ≤ min 1 ((r.recentSightings : ℚ) / 10) ∧
      min 1 ((r.recentSightings : ℚ) / 10) ≤ 1 :=
    ⟨le_min (by norm_num) (by positivity), min_le_left _ _⟩
  have hloc := calculateWildlifeLocationScore_bounds r hveg hcrowd
  unfold calculateWildlifeScore
  constructor <;>
    linarith [ht.1, ht.2, hsea.1, hsea.2, hhist'.1, hhist'.2, hcon.1, hcon.2,
      hloc.1, hloc.2]

/-- Facility distribution (uniformity) component: in `[0,1]`. -/
lemma calculateFacilityDistribution_bounds (facilities : List Facility)
    (r : Route) :
    0 ≤ calculateFacilityDistribution facilities r ∧
      calculateFacilityDistribution facilities r ≤ 1 := by
  unfold calculateFacilityDistribution
  split_ifs
  · norm_num
  · exact ⟨le_max_left _ _, max_le (by norm_num) (min_le_left _ _)⟩

/-- Facility personal-needs component: in `[0,1]`. -/
lemma calculatePersonalFacilityScore_bounds (facilities : List Facility)
    (userNeeds : List (String × Bool)) :
    0 ≤ calculatePersonalFacilityScore facilities userNeeds ∧
      calculatePersonalFacilityScore facilities userNeeds ≤ 1 := by
  simp only [calculatePersonalFacilityScore]
  split_ifs with h1 h2
  · norm_num
  · have hle : (userNeeds.filter
        (fun n => n.2 && facilities.any (fun f => f.type == n.1))).length ≤
        (userNeeds.filter (fun n => n.2)).length := by
      rw [← List.countP_eq_length_filter, ← List.countP_eq_length_filter]
      apply List.countP_mono_left
      intro a _ ha
      simp only [Bool.and_eq_true] at ha
      exact ha.1
    constructor
    · positivity
    · rw [div_le_one (by exact_mod_cast h2)]
      exact_mod_cast hle
  · norm_num

/-- Facility status component: in `[0,1]`. -/
lemma calculateFacilityStatus_bounds (facilities : List Facility) :
    0 ≤ calculateFacilityStatus facilities ∧
      calculateFacilityStatus facilities ≤ 1 := by
  unfold calculateFacilityStatus
  split_ifs with h
  · norm_num
  · have hpos : 0 < (facilities.length : ℚ) := by
      have := List.length_pos.mpr h
      exact_mod_cast this
    constructor
    · positivity
    · rw [div_le_one hpos]
      exact_mod_cast List.length_filter_le _ _

/-- One basic-facility density term: in `[0,1]`. -/
lemma basic_term_bounds (count L : ℚ) (hc : 0 ≤ count) :
    0 ≤ min 1 (count / max 1 L / 2) ∧ min 1 (count / max 1 L / 2) ≤ 1 := by
  have hden : (0:ℚ) < max 1 L := lt_of_lt_of_le one_pos (le_max_left _ _)
  constructor
  · refine le_min (by norm_num) ?_
    have := div_nonneg hc hden.le
    linarith
  · exact min_le_left _ _

/-- The facility subscore lies in `[0,1]` (no validity assumption
needed). -/
lemma calculateFacilityScore_bounds (r : Route)
    (userNeeds : List (String × Bool)) :
    0 ≤ calculateFacilityScore r userNeeds ∧
      calculateFacilityScore r userNeeds ≤ 1 := by
  have hacc := calculateFacilityDistribution_bounds r.facilities r
  have hper := calculatePersonalFacilityScore_bounds r.facilities userNeeds
  have hst := calculateFacilityStatus_bounds r.facilities
  have h1 := basic_term_bounds
    ((r.facilities.filter (fun f => f.type == "toilet")).length : ℚ)
    (jsq r.distance 1000 / 1000) (by positivity)
  have h2 := basic_term_bounds
    ((r.facilities.filter (fun f => f.type == "bench")).length : ℚ)
    (jsq r.distance 1000 / 1000) (by positivity)
  have h3 := basic_term_bounds
    ((r.facilities.filter (fun f => f.type == "water")).length : ℚ)
    (jsq r.distance 1000 / 1000) (by positivity)
  simp only [calculateFacilityScore, List.foldl_cons, List.foldl_nil]
  constructor <;>
    linarith [hacc.1, hacc.2, hper.1, hper.2, hst.1, hst.2, h1.1, h1.2,
      h2.1, h2.2, h3.1, h3.2]

/-- The path-quality subscore of a valid route lies in `[0.5, 1]`. -/
lemma calculatePathQuality_bounds (r : Route) (h : validRoute r = true) :
    0.5 ≤ calculatePathQuality r ∧ calculatePathQuality r ≤ 1 := by
  obtain ⟨_, _, _, _, _, _, hsq, _, hsaf, hsc, _⟩ := validRoute_parts h
  have hsq' := jsOrQ_unit hsq (by norm_num : (0:ℚ) ≤ 0.7) (by norm_num)
  have hsaf' := jsOrQ_unit hsaf (by norm_num : (0:ℚ) ≤ 0.8) (by norm_num)
  have hsc' := jsOrQ_unit hsc (by norm_num : (0:ℚ) ≤ 0.6) (by norm_num)
  have hg : (0:ℚ) ≤ max 0 (1 - jsOrQ r.gradient 0.05 * 10) := le_max_left _ _
  simp only [calculatePathQuality]
  constructor
  · refine le_min (by norm_num) ?_
    linarith [hsq'.1, hsaf'.1, hsc'.1, hg]
  · exact min_le_left _ _

set_option maxHeartbeats 1600000 in
/-- The personal-preference subscore lies in `[0.5, 1]` (no validity
assumption needed: every branch only adds a nonnegative bonus). -/
lemma calculatePersonalPreference_bounds (r : Route) (p : Preferences) :
    0.5 ≤ calculatePersonalPreference r p ∧
      calculatePersonalPreference r p ≤ 1 := by
  have hdist : (0:ℚ) ≤ max 0 (1 -
      |jsq r.distance 1000 - p.preferredDistance.getD 0| /
        p.preferredDistance.getD 0) * 0.3 :=
    mul_nonneg (le_max_left _ _) (by norm_num)
  have hdur : (0:ℚ) ≤ max 0 (1 -
      |jsq r.estimatedTime 30 - p.preferredDuration.getD 0| /
        p.preferredDuration.getD 0) * 0.2 :=
    mul_nonneg (le_max_left _ _) (by norm_num)
  simp only [calculatePersonalPreference]
  constructor
  · refine le_min (by norm_num) ?_
    rcases hI : p.interests with _ | il <;> rcases hT : r.themes with _ | ts <;>
      simp only [hI, hT] <;>
      split_ifs <;>
      first
        | linarith [hdist, hdur]
        | (have hr : (0:ℚ) ≤
              ((il.filter (fun i => ts.contains i)).length : ℚ) /
                max 1 (il.length : ℚ) * 0.3 := by
            have hden : (0:ℚ) < max 1 (il.length : ℚ) :=
              lt_of_lt_of_le one_pos (le_max_left _ _)
            have hdv := div_nonneg
              (by positivity : (0:ℚ) ≤ ((il.filter (fun i => ts.contains i)).length : ℚ))
              hden.le
            linarith
           linarith [hdist, hdur, hr])
  · exact min_le_left _ _

/-- `round2` keeps `[0,1]` values in `[0,1]`. -/
lemma round2_bounds {x : ℚ} (h0 : 0 ≤ x) (h1 : x ≤ 1) :
    0 ≤ round2 x ∧ round2 x ≤ 1 := by
  unfold round2
  constructor
  · apply div_nonneg _ (by norm_num)
    have hf : (0:ℤ) ≤ ⌊x * 100 + 1/2⌋ := Int.floor_nonneg.mpr (by linarith)
    exact_mod_cast hf
  · rw [div_le_one (by norm_num)]
    have hf : ⌊x * 100 + 1/2⌋ ≤ (100:ℤ) := by
      rw [Int.floor_le_iff]
      push_cast
      linarith
    exact_mod_cast hf

/-- C5 (amended): for every valid route, preferences and context, the
returned `total` lies in `[0,1]`, and `total` is the weighted sum of the
five RAW (unrounded) subscores under the returned weights, rounded to two
decimals — not a recombination of the rounded breakdown values. -/
theorem calculateScore_total_bounds (r : Route) (p : Preferences)
    (c : Context) (h : validRoute r = true) :
    (0 ≤ (calculateScore r p c).total ∧ (calculateScore r p c).total ≤ 1) ∧
    (calculateScore r p c).total =
      round2 (calculateWeatherScore r c.weather * (adjustWeights p).environment +
        calculateWildlifeScore r c.hour (jsOrS c.season "spring") *
          (adjustWeights p).wildlife +
        calculateFacilityScore r p.needs * (adjustWeights p).facility +
        calculatePathQuality r * (adjustWeights p).path +
        calculatePersonalPreference r p * (adjustWeights p).personal) := by
  have h1 := calculateWeatherScore_bounds r c.weather h
  have h2 := calculateWildlifeScore_bounds r c.hour (jsOrS c.season "spring") h
  have h3 := calculateFacilityScore_bounds r p.needs
  have h4 := calculatePathQuality_bounds r h
  have h5 := calculatePersonalPreference_bounds r p
  have htot : 0 ≤ calculateWeatherScore r c.weather * (adjustWeights p).environment +
      calculateWildlifeScore r c.hour (jsOrS c.season "spring") *
        (adjustWeights p).wildlife +
      calculateFacilityScore r p.needs * (adjustWeights p).facility +
      calculatePathQuality r * (adjustWeights p).path +
      calculatePersonalPreference r p * (adjustWeights p).personal ∧
      calculateWeatherScore r c.weather * (adjustWeights p).environment +
      calculateWildlifeScore r c.hour (jsOrS c.season "spring") *
        (adjustWeights p).wildlife +
      calculateFacilityScore r p.needs * (adjustWeights p).facility +
      calculatePathQuality r * (adjustWeights p).path +
      calculatePersonalPreference r p * (adjustWeights p).personal ≤ 1 := by
    obtain ⟨pw, ws, fd, pq, nds, pdi, dl, it, pdu⟩ := p
    cases pw <;> cases ws <;> cases fd <;> cases pq <;>
      simp only [adjustWeights, defaultWeights, if_true, if_false,
        Bool.false_eq_true, ite_true, ite_false] <;>
      constructor <;>
      linarith [h1.1, h1.2, h2.1, h2.2, h3.1, h3.2, h4.1, h4.2, h5.1, h5.2]
  exact ⟨by
    have heq : (calculateScore r p c).total =
        round2 (calculateWeatherScore r c.weather * (adjustWeights p).environment +
          calculateWildlifeScore r c.hour (jsOrS c.season "spring") *
            (adjustWeights p).wildlife +
          calculateFacilityScore r p.needs * (adjustWeights p).facility +
          calculatePathQuality r * (adjustWeights p).path +
          calculatePersonalPreference r p * (adjustWeights p).personal) := rfl
    rw [heq]
    exact round2_bounds htot.1 htot.2, rfl⟩

/-- C5 counterexample: on `routeC5` the raw weighted sum is `0.50375`
(`total = 0.50`) but recombining the ROUNDED breakdown values
(wildlife `0.08`, facility `0.23`) gives `0.506`, which rounds to `0.51`:
`total` does not equal the rounded weighted sum of the returned (rounded)
breakdown values, refuting the claim as stated. -/
theorem calculateScore_breakdown_rounding_mismatch :
    (calculateScore routeC5 emptyPrefs ctxC5).total ≠
      round2 ((calculateScore routeC5 emptyPrefs ctxC5).breakdown.weather *
          (calculateScore routeC5 emptyPrefs ctxC5).weights.environment +
        (calculateScore routeC5 emptyPrefs ctxC5).breakdown.wildlife *
          (calculateScore routeC5 emptyPrefs ctxC5).weights.wildlife +
        (calculateScore routeC5 emptyPrefs ctxC5).breakdown.facility *
          (calculateScore routeC5 emptyPrefs ctxC5).weights.facility +
        (calculateScore routeC5 emptyPrefs ctxC5).breakdown.path *
          (calculateScore routeC5 emptyPrefs ctxC5).weights.path +
        (calculateScore routeC5 emptyPrefs ctxC5).breakdown.personal *
          (calculateScore routeC5 emptyPrefs ctxC5).weights.personal) := by
  with_unfolding_all decide

/-- C5 witness: the amended theorem applied to the concrete valid route
`routeC5`. -/
theorem calculateScore_total_bounds_witness :
    validRoute routeC5 = true ∧
    ((0 ≤ (calculateScore routeC5 emptyPrefs ctxC5).total ∧
        (calculateScore routeC5 emptyPrefs ctxC5).total ≤ 1) ∧
      (calculateScore routeC5 emptyPrefs ctxC5).total =
        round2 (calculateWeatherScore routeC5 ctxC5.weather *
            (adjustWeights emptyPrefs).environment +
          calculateWildlifeScore routeC5 ctxC5.hour
              (jsOrS ctxC5.season "spring") *
            (adjustWeights emptyPrefs).wildlife +
          calculateFacilityScore routeC5 emptyPrefs.needs *
            (adjustWeights emptyPrefs).facility +
          calculatePathQuality routeC5 * (adjustWeights emptyPrefs).path +
          calculatePersonalPreference routeC5 emptyPrefs *
            (adjustWeights emptyPrefs).personal)) :=
  ⟨by with_unfolding_all decide,
    calculateScore_total_bounds routeC5 emptyPrefs ctxC5
      (by with_unfolding_all decide)⟩

end ParkSense
